import Mathlib

/-!
Verification of the NightFrame capability-adaptation core.

This file gives a shallow embedding, in Lean 4, of the three core components of
the NightFrame repository and proves properties of the embedded code:

* the metacognitive cycle scheduler and capability store
  (src/training/metacognitive/engine.py),
* the plugin registry and dynamic loader (src/training/plugins/loader.py),
* the pattern-signature function of the skill-discovery engine
  (src/training/skill_discovery/discovery.py).

Modelling conventions, shared by all three components:

* Python floats are modelled as rationals; all arithmetic the embedded code
  performs on them (comparisons, clamping, division, truncation) is exact on
  the inputs used in the theorems below.
* Python dicts are modelled as insertion-ordered association lists with a
  replace-in-place update, matching dict assignment semantics.
* Wall-clock timestamps, log output and the thread locks are not modelled:
  timestamps feed only into presentation strings and the time-derived unique
  ids, which are replaced by a deterministic per-engine counter (next_id).
  Presentation-only strings (gap and objective descriptions) are omitted.
* sqlite persistence is modelled as an in-memory storage value updated by the
  same INSERT OR REPLACE / INSERT OR IGNORE logic the code issues; the code
  swallows storage errors, so the storage write itself always succeeds here.
* A Python statement that can raise becomes a value of type Except String.
-/

namespace NightFrame

/-- Replace-in-place update of an insertion-ordered association list, the model
of Python dict assignment: an existing key keeps its position, a new key is
appended at the end. -/
def upsert (k : String) (v : α) : List (String × α) → List (String × α)
  | [] => [(k, v)]
  | (k', v') :: rest => if k' = k then (k, v) :: rest else (k', v') :: upsert k v rest

/-- First-match lookup in an association list, the model of Python dict access. -/
def alookup (k : String) : List (String × α) → Option α
  | [] => none
  | (k', v) :: rest => if k' = k then some v else alookup k rest

/-- Python int() truncates toward zero. -/
def pythonInt (q : ℚ) : ℤ := if 0 ≤ q then ⌊q⌋ else ⌈q⌉

namespace Engine

/-- LearningPhase enum of engine.py. -/
inductive LearningPhase
  | reflecting | planning | executing | evaluating | adapting
deriving DecidableEq, Repr

/-- PerformanceMetric dataclass of engine.py.  The context dict written by
update_capability is flattened into its two entries; the time-derived
metric_id is modelled by the engine's deterministic counter. -/
structure PerformanceMetric where
  metric_id : Nat
  capability_domain : String
  metric_name : String
  value : ℚ
  context_source : String
  context_previous : ℚ
deriving DecidableEq, Repr

/-- LearningGap dataclass of engine.py (description and discovered_at are
presentation/timestamp fields and are omitted). -/
structure LearningGap where
  gap_id : Nat
  domain : String
  severity : ℚ
  resolution_attempts : Nat
  is_resolved : Bool
deriving DecidableEq, Repr

/-- LearningObjective dataclass of engine.py (description, created_at and
deadline omitted as presentation/timestamp fields). -/
structure LearningObjective where
  objective_id : Nat
  domain : String
  target_metric : String
  target_value : ℚ
  priority : ℤ
  is_achieved : Bool
deriving DecidableEq, Repr

/-- AdaptationStrategy dataclass of engine.py; the parameters dict written by
_adapt is flattened into its four entries. -/
structure AdaptationStrategy where
  strategy_id : Nat
  name : String
  learning_rate_multiplier : ℚ
  batch_size_multiplier : ℚ
  epochs_multiplier : ℚ
  target_domain : String
  success_rate : ℚ
  usage_count : Nat
  is_active : Bool
deriving DecidableEq, Repr

/-- In-memory state of MetacognitiveEngine.  The three event lists record the
payloads delivered to the registered on_gap_identified / on_skill_discovered /
on_adaptation callbacks (delivery only; a throwing callback is caught by the
code and does not affect engine state). -/
structure EngineState where
  phase : LearningPhase
  capabilities : List (String × ℚ)
  objectives : List LearningObjective
  gaps : List LearningGap
  strategies : List AdaptationStrategy
  metrics : List PerformanceMetric
  learning_cycles : Nat
  skills_discovered : Nat
  adaptations : Nat
  next_id : Nat
  gap_events : List Nat
  skill_events : List (String × ℚ)
  adaptation_events : List Nat
deriving DecidableEq, Repr

/-- The CapabilityDomain enum values of engine.py. -/
def domains : List String :=
  ["4g_lte", "5g_nr", "network_handover", "wifi_ap", "cellular_intelligence",
   "rf_fingerprinting", "location_prediction", "swarm_coordination",
   "internet_provision", "mesh_routing"]

/-- Engine state after __init__ on a fresh database: every domain at zero
confidence, everything else empty. -/
def initState : EngineState :=
  { phase := .reflecting
    capabilities := domains.map (fun d => (d, 0))
    objectives := []
    gaps := []
    strategies := []
    metrics := []
    learning_cycles := 0
    skills_discovered := 0
    adaptations := 0
    next_id := 0
    gap_events := []
    skill_events := []
    adaptation_events := [] }

/-- Dict read with default 0, as in capabilities.get(domain, 0). -/
def capGet (caps : List (String × ℚ)) (domain : String) : ℚ :=
  (alookup domain caps).getD 0

/-- get_capability of engine.py. -/
def getCapability (s : EngineState) (domain : String) : ℚ :=
  capGet s.capabilities domain

/-- update_capability of engine.py (lines 505-531): clamps to [0,1], records a
PerformanceMetric carrying the previous value, and on crossing the 0.5
threshold increments the skills-discovered counter and notifies the
on_skill_discovered callbacks with (domain, raw confidence). -/
def update_capability (s : EngineState) (domain : String) (confidence : ℚ)
    (source : String) : EngineState :=
  let old_value := capGet s.capabilities domain
  let metric : PerformanceMetric :=
    { metric_id := s.next_id
      capability_domain := domain
      metric_name := "confidence"
      value := confidence
      context_source := source
      context_previous := old_value }
  let s' := { s with
    capabilities := upsert domain (max 0 (min 1 confidence)) s.capabilities
    metrics := s.metrics ++ [metric]
    next_id := s.next_id + 1 }
  if old_value < 1/2 ∧ 1/2 ≤ confidence then
    { s' with
      skills_discovered := s'.skills_discovered + 1
      skill_events := s'.skill_events ++ [(domain, confidence)] }
  else s'

/-- A sequence of update_capability calls on one domain, starting from a fresh
engine. -/
def runUpdates (seq : List ℚ) : EngineState :=
  seq.foldl (fun st c => update_capability st "rf_fingerprinting" c "training") initState

/-- The priority_domains table of _reflect (engine.py lines 365-374):
(domain, target confidence). -/
def priority_domains : List (String × ℚ) :=
  [("4g_lte", 9/10), ("5g_nr", 8/10), ("network_handover", 85/100),
   ("wifi_ap", 9/10), ("internet_provision", 95/100), ("rf_fingerprinting", 75/100),
   ("location_prediction", 7/10), ("mesh_routing", 8/10)]

/-- The loop body of _reflect, one priority domain at a time: when the current
confidence is below target, a gap with severity (target - current) / target is
appended to the returned list and to engine state, and its id is delivered to
the on_gap_identified callbacks. -/
def reflectGaps : List (String × ℚ) → EngineState → List LearningGap × EngineState
  | [], s => ([], s)
  | (domain, target) :: rest, s =>
    let current := capGet s.capabilities domain
    if current < target then
      let gap : LearningGap :=
        { gap_id := s.next_id
          domain := domain
          severity := (target - current) / target
          resolution_attempts := 0
          is_resolved := false }
      let r := reflectGaps rest
        { s with
          gaps := s.gaps ++ [gap]
          next_id := s.next_id + 1
          gap_events := s.gap_events ++ [gap.gap_id] }
      (gap :: r.1, r.2)
    else reflectGaps rest s

/-- _reflect of engine.py (lines 352-400). -/
def reflect (s : EngineState) : List LearningGap × EngineState :=
  reflectGaps priority_domains s

/-- Descending-severity comparison used by _plan's sort. -/
def gapGE (a b : LearningGap) : Prop := b.severity ≤ a.severity

instance : DecidableRel gapGE := fun a b => inferInstanceAs (Decidable (b.severity ≤ a.severity))

instance : IsTotal LearningGap gapGE := ⟨fun a b => (le_total b.severity a.severity)⟩

instance : IsTrans LearningGap gapGE := ⟨fun _ _ _ hab hbc => le_trans hbc hab⟩

/-- The objective _plan creates for one gap (engine.py lines 412-419): target
value is current capability + 0.1 and priority is int(severity * 10), which
truncates toward zero. -/
def mkObjective (s : EngineState) (gap : LearningGap) : LearningObjective :=
  { objective_id := s.next_id
    domain := gap.domain
    target_metric := gap.domain ++ "_accuracy"
    target_value := capGet s.capabilities gap.domain + 1/10
    priority := pythonInt (gap.severity * 10)
    is_achieved := false }

/-- The loop body of _plan over the (already sorted and truncated) gap list. -/
def planGaps : List LearningGap → EngineState → List LearningObjective × EngineState
  | [], s => ([], s)
  | gap :: rest, s =>
    let obj := mkObjective s gap
    let r := planGaps rest { s with objectives := s.objectives ++ [obj], next_id := s.next_id + 1 }
    (obj :: r.1, r.2)

/-- _plan of engine.py (lines 402-425): sort the gaps by severity descending
with Python's stable sort (modelled by the stable insertionSort, which agrees
with any stable sort for this total preorder), keep the top 5, and create one
objective per kept gap. -/
def plan (gaps : List LearningGap) (s : EngineState) : List LearningObjective × EngineState :=
  planGaps ((gaps.insertionSort gapGE).take 5) s

/-- The evaluation summary dict built by _evaluate. -/
structure EvalSummary where
  total_objectives : Nat
  achieved : Nat
  in_progress : Nat
deriving DecidableEq, Repr

/-- The loop body of _evaluate: every not-yet-achieved objective is marked
achieved when current capability reaches its target; returns the updated
objectives and the (achieved, in_progress) counts. -/
def evalObjectives (caps : List (String × ℚ)) :
    List LearningObjective → List LearningObjective × Nat × Nat
  | [] => ([], 0, 0)
  | obj :: rest =>
    let r := evalObjectives caps rest
    if obj.is_achieved then (obj :: r.1, r.2.1, r.2.2)
    else if obj.target_value ≤ capGet caps obj.domain then
      ({ obj with is_achieved := true } :: r.1, r.2.1 + 1, r.2.2)
    else (obj :: r.1, r.2.1, r.2.2 + 1)

/-- _evaluate of engine.py (lines 427-450); the training_data argument only
gates whether run_cycle calls it, so it is not a parameter here. -/
def evaluate (s : EngineState) : EvalSummary × EngineState :=
  let r := evalObjectives s.capabilities s.objectives
  ({ total_objectives := s.objectives.length, achieved := r.2.1, in_progress := r.2.2 },
   { s with objectives := r.1 })

/-- Strategy deactivation in _adapt (engine.py lines 460-466): is_active is
cleared exactly for strategies with success_rate < 0.3 and usage_count > 5
(note the strict inequality in the source: s.usage_count > 5). -/
def deactivateFailing (l : List AdaptationStrategy) : List AdaptationStrategy :=
  l.map fun st =>
    if st.success_rate < 3/10 ∧ 5 < st.usage_count then { st with is_active := false } else st

/-- The strategy _adapt synthesizes for one unresolved gap (engine.py lines
474-484); the tuning multipliers scale with the gap's attempt count. -/
def mkStrategy (strategy_id : Nat) (gap : LearningGap) : AdaptationStrategy :=
  { strategy_id := strategy_id
    name := "Adaptive_" ++ gap.domain
    learning_rate_multiplier := 1 + (gap.resolution_attempts : ℚ) * (1/2)
    batch_size_multiplier := 1 + (gap.resolution_attempts : ℚ) * (1/4)
    epochs_multiplier := 1 + (gap.resolution_attempts : ℚ) * (1/2)
    target_domain := gap.domain
    success_rate := 0
    usage_count := 0
    is_active := true }

/-- The strategy-creation loop of _adapt over self._gaps: at most budget = 3
unresolved gaps are visited (unresolved_gaps[:3]); a visited gap with fewer
than 3 resolution attempts yields a new strategy and has its attempt counter
incremented in place.  Returns (updated gaps, created strategies, next id). -/
def adaptGaps : List LearningGap → Nat → Nat → List LearningGap × List AdaptationStrategy × Nat
  | [], _, nid => ([], [], nid)
  | gap :: rest, budget, nid =>
    if gap.is_resolved then
      let r := adaptGaps rest budget nid
      (gap :: r.1, r.2.1, r.2.2)
    else match budget with
      | 0 => (gap :: rest, [], nid)
      | b + 1 =>
        if gap.resolution_attempts < 3 then
          let r := adaptGaps rest b (nid + 1)
          ({ gap with resolution_attempts := gap.resolution_attempts + 1 } :: r.1,
           mkStrategy nid gap :: r.2.1, r.2.2)
        else
          let r := adaptGaps rest b nid
          (gap :: r.1, r.2.1, r.2.2)

/-- _adapt of engine.py (lines 452-499): deactivate failing strategies, then
synthesize strategies for up to 3 unresolved gaps with fewer than 3 resolution
attempts, appending them to engine state and notifying the on_adaptation
callbacks. -/
def adapt (s : EngineState) : List AdaptationStrategy × EngineState :=
  let r := adaptGaps s.gaps 3 s.next_id
  (r.2.1,
   { s with
     strategies := deactivateFailing s.strategies ++ r.2.1
     gaps := r.1
     next_id := r.2.2
     adaptations := s.adaptations + r.2.1.length
     adaptation_events := s.adaptation_events ++ r.2.1.map (·.strategy_id) })

/-- The sqlite state reached by _save_state: the capabilities table (INSERT OR
REPLACE keyed by domain) and the performance_metrics table (INSERT OR IGNORE
keyed by metric_id). -/
structure EngineStorage where
  capabilities : List (String × ℚ)
  metrics : List PerformanceMetric
deriving DecidableEq, Repr

/-- INSERT OR IGNORE of a batch of metrics keyed by metric_id. -/
def insertIgnoreMetrics (db : List PerformanceMetric) :
    List PerformanceMetric → List PerformanceMetric
  | [] => db
  | m :: rest =>
    insertIgnoreMetrics (if db.any (fun m' => m'.metric_id == m.metric_id) then db else db ++ [m]) rest

/-- INSERT OR REPLACE of every in-memory capability row. -/
def upsertAll (db : List (String × ℚ)) : List (String × ℚ) → List (String × ℚ)
  | [] => db
  | (k, v) :: rest => upsertAll (upsert k v db) rest

/-- _save_state of engine.py (lines 568-597): writes every capability and the
last 100 metrics.  The source swallows storage exceptions, so the write is
modelled as always succeeding. -/
def saveState (s : EngineState) (db : EngineStorage) : EngineStorage :=
  { capabilities := upsertAll db.capabilities s.capabilities
    metrics := insertIgnoreMetrics db.metrics (s.metrics.drop (s.metrics.length - 100)) }

/-- The result dict of run_cycle (timestamp and duration_seconds, which are
wall-clock values, are omitted). -/
structure CycleResult where
  cycle_id : Nat
  gaps_identified : List LearningGap
  objectives_created : List LearningObjective
  adaptations_made : List AdaptationStrategy
  evaluation : Option EvalSummary
  error : Option String
deriving DecidableEq, Repr

/-- A phase call as run_cycle sees it: it may update engine state and either
return a value or raise.  State changes made before a raise stay visible,
matching Python's in-place mutation. -/
abbrev PhaseFn (α : Type) := EngineState → Except String α × EngineState

/-- Lifts one of the concrete (never-raising) phase functions to a PhaseFn. -/
def liftPhase (f : EngineState → α × EngineState) : PhaseFn α :=
  fun s => (.ok (f s).1, (f s).2)

/-- Assignment to the engine's phase field, as done before each phase call. -/
def markPhase (p : LearningPhase) (s : EngineState) : EngineState := { s with phase := p }

/-- The ADAPT tail of run_cycle followed by _save_state; split out so the
save-only-on-success control flow is explicit. -/
def runAdaptPhase (fA : PhaseFn (List AdaptationStrategy)) (res : CycleResult)
    (s : EngineState) (db : EngineStorage) : CycleResult × EngineState × EngineStorage :=
  match fA (markPhase .adapting s) with
  | (.error e, s'') => ({ res with error := some e }, s'', db)
  | (.ok adaptations, s'') =>
    ({ res with adaptations_made := adaptations }, s'', saveState s'' db)

/-- The control skeleton of run_cycle (engine.py lines 294-350), parametrized
over the behavior of the four phase calls, which are the statements the
enclosing try can see raise.  The except arm stores str(e) in the result's
error field and falls through to returning the result: a phase error aborts
the remaining phases and the _save_state call (which sits inside the try, as
the last statement before the except), and is not propagated to the caller. -/
def runCycleWith (fR : PhaseFn (List LearningGap))
    (fP : List LearningGap → PhaseFn (List LearningObjective))
    (fE : PhaseFn EvalSummary) (fA : PhaseFn (List AdaptationStrategy))
    (has_training_data : Bool) (s : EngineState) (db : EngineStorage) :
    CycleResult × EngineState × EngineStorage :=
  let s0 := { s with learning_cycles := s.learning_cycles + 1 }
  let res0 : CycleResult :=
    { cycle_id := s0.learning_cycles
      gaps_identified := []
      objectives_created := []
      adaptations_made := []
      evaluation := none
      error := none }
  match fR (markPhase .reflecting s0) with
  | (.error e, s') => ({ res0 with error := some e }, s', db)
  | (.ok gaps, s2) =>
    let res1 := { res0 with gaps_identified := gaps }
    match fP gaps (markPhase .planning s2) with
    | (.error e, s') => ({ res1 with error := some e }, s', db)
    | (.ok objs, s4) =>
      let res2 := { res1 with objectives_created := objs }
      match has_training_data with
      | true =>
        match fE (markPhase .evaluating s4) with
        | (.error e, s') => ({ res2 with error := some e }, s', db)
        | (.ok ev, s6) => runAdaptPhase fA { res2 with evaluation := some ev } s6 db
      | false => runAdaptPhase fA res2 (markPhase .evaluating s4) db

/-- run_cycle of engine.py, with the four concrete phase implementations. -/
def run_cycle (has_training_data : Bool) (s : EngineState) (db : EngineStorage) :
    CycleResult × EngineState × EngineStorage :=
  runCycleWith (liftPhase reflect) (fun gaps => liftPhase (plan gaps))
    (liftPhase evaluate) (liftPhase adapt) has_training_data s db

end Engine

namespace Loader

/-- PluginStatus enum of loader.py. -/
inductive PluginStatus
  | discovered | loading | active | error | disabled
deriving DecidableEq, Repr

/-- PluginContext dataclass of loader.py (lines 47-54): the bundle the loader
builds for plugin initialization.  config and shared_state default to empty
dicts; shared_state is never populated by the loader and is omitted. -/
structure PluginContext where
  plugin_id : String
  plugin_dir : String
  config : List (String × String)
deriving DecidableEq, Repr

/-- A resolved skill object, as the duck-typed loader sees it: which attributes
it exposes (hasattr probes) and what its methods do when called.  The field
named init_method models the object's initialize method: it receives none when
called with no arguments — which is how loader.py line 351 calls it — and
some ctx when called with a context as the NightframePlugin interface (lines
82-92) declares; a raise is an .error.  has_init models
hasattr(instance, "initialize"). -/
structure SkillInstance where
  has_init : Bool
  init_method : Option PluginContext → Except String Bool
  has_is_ready : Bool
  has_capabilities : Bool
  capabilities : List String
  has_network_config : Bool
  has_feature_config : Bool
  has_shutdown : Bool
  shutdown_ok : Bool
  predict : Option (String → Except String String)
  analyze_network_state : Option (String → Except String String)
  run_execute : Option (String → Except String String)

/-- One plugin source file as the loader sees it: the outcome of executing the
module, the factory entry point if any, the fallback class scan result, and
the file's content checksum.  The checksum field stands for the 16-hex-char
SHA-256-derived value _compute_checksum reads from the file bytes (the hash
function itself is embedded and verified with the skill-discovery component).
scan_class is the first class in the module namespace exposing initialize and
is_ready attributes, carrying the outcome of instantiating it. -/
structure PyFile where
  exec_module : Except String Unit
  has_get_skill : Bool
  get_skill : Except String SkillInstance
  scan_class : Option (Except String SkillInstance)
  checksum : String

/-- PluginInfo dataclass of loader.py (timestamps omitted; the field named
inst is the source's instance field, renamed because instance is a Lean
keyword). -/
structure PluginInfo where
  plugin_id : String
  name : String
  version : String
  capabilities : List String
  module_path : String
  status : PluginStatus
  inst : Option SkillInstance
  load_count : Nat
  execution_count : Nat
  error_count : Nat
  last_error : Option String
  file_checksum : String

/-- Combined state of PluginRegistry and DynamicPluginLoader: the primary
plugin dict, the capability index, the two module caches, the sqlite plugins
table, and the payloads delivered to the on_plugin_loaded / on_plugin_error
callbacks. -/
structure LoaderState where
  plugins : List (String × PluginInfo)
  capabilities_map : List (String × List String)
  loaded_modules : List String
  sys_modules : List String
  db : List (String × PluginInfo)
  loaded_events : List String
  error_events : List (String × String)

/-- Loader state after __init__ on an empty plugin directory and database. -/
def initLoader : LoaderState :=
  { plugins := []
    capabilities_map := []
    loaded_modules := []
    sys_modules := []
    db := []
    loaded_events := []
    error_events := [] }

/-- The capability-index update loop of PluginRegistry.register (loader.py
lines 162-167): ensure a list exists for each capability and append the plugin
id if not already present. -/
def registerCaps (pid : String) : List String → List (String × List String) → List (String × List String)
  | [], m => m
  | cap :: rest, m =>
    let cur := (alookup cap m).getD []
    registerCaps pid rest (if pid ∈ cur then m else upsert cap (cur ++ [pid]) m)

/-- PluginRegistry.register (loader.py lines 157-169): insert/overwrite by id
and update the capability index.  Always returns True in the source. -/
def register (st : LoaderState) (info : PluginInfo) : LoaderState :=
  { st with
    plugins := upsert info.plugin_id info st.plugins
    capabilities_map := registerCaps info.plugin_id info.capabilities st.capabilities_map }

/-- The capability-index pruning loop of PluginRegistry.unregister (loader.py
lines 180-185): for each capability of the registered info, filter the plugin
id out of that capability's list. -/
def pruneCaps (pid : String) : List String → List (String × List String) → List (String × List String)
  | [], m => m
  | cap :: rest, m =>
    pruneCaps pid rest
      (match alookup cap m with
       | none => m
       | some cur => upsert cap (cur.filter (fun p => p ≠ pid)) m)

/-- PluginRegistry.unregister (loader.py lines 171-188). -/
def unregister (st : LoaderState) (plugin_id : String) : Bool × LoaderState :=
  match alookup plugin_id st.plugins with
  | none => (false, st)
  | some info =>
    (true,
     { st with
       plugins := st.plugins.filter (fun kv => kv.1 ≠ plugin_id)
       capabilities_map := pruneCaps plugin_id info.capabilities st.capabilities_map })

/-- PluginRegistry.get_by_capability (loader.py lines 194-197): resolve the
indexed ids against the primary map, silently dropping stale ids. -/
def get_by_capability (st : LoaderState) (capability : String) : List PluginInfo :=
  ((alookup capability st.capabilities_map).getD []).filterMap
    (fun pid => alookup pid st.plugins)

/-- file_path.name.startswith an underscore, written out over the character
list so that it evaluates. -/
def startsWithUnderscore (s : String) : Bool :=
  match s.data with
  | [] => false
  | c :: _ => c = '_'

/-- DynamicPluginLoader.discover (loader.py lines 266-291).  The plugin
directory is a listing of (file stem, file); paths are identified with their
stems, which is how load derives plugin ids.  A file is discovered when its
name does not start with an underscore and either no registry entry exists for
its id or the stored checksum differs from the file's. -/
def discover (dir : List (String × PyFile)) (st : LoaderState) : List String :=
  dir.filterMap fun nf =>
    if startsWithUnderscore nf.1 then none
    else match alookup nf.1 st.plugins with
      | none => some nf.1
      | some existing => if existing.file_checksum ≠ nf.2.checksum then some nf.1 else none

/-- Dict-style set insertion for the module caches. -/
def addKey (k : String) (l : List String) : List String :=
  if k ∈ l then l else l ++ [k]

/-- The ERROR-status PluginInfo the except arm of load builds (loader.py lines
393-401): no capabilities, no instance, zero counters. -/
def errorInfo (plugin_id module_path e : String) : PluginInfo :=
  { plugin_id := plugin_id
    name := plugin_id
    version := "unknown"
    capabilities := []
    module_path := module_path
    status := .error
    inst := none
    load_count := 0
    execution_count := 0
    error_count := 0
    last_error := some e
    file_checksum := "" }

/-- The except arm of load (loader.py lines 389-411): register the ERROR
record, notify the on_plugin_error callbacks (their own errors are swallowed),
and return no instance. -/
def loadFail (st : LoaderState) (plugin_id module_path e : String) :
    Option PluginInfo × LoaderState :=
  let st' := register st (errorInfo plugin_id module_path e)
  (none, { st' with error_events := st'.error_events ++ [(plugin_id, e)] })

/-- Instance resolution in load (loader.py lines 327-342): prefer the
get_skill factory; otherwise the first scanned skill-looking class, raising
when none exists. -/
def resolveInstance (f : PyFile) : Except String SkillInstance :=
  if f.has_get_skill then f.get_skill
  else match f.scan_class with
    | none => .error "No skill class found in module"
    | some c => c

/-- Capability derivation in load (loader.py lines 354-360). -/
def deriveCapabilities (inst : SkillInstance) : List String :=
  if inst.has_capabilities then inst.capabilities
  else if inst.has_network_config then ["network"]
  else if inst.has_feature_config then ["predictor"]
  else []

/-- Python str.title() as applied to a plugin id with underscores replaced by
spaces (loader.py line 364); only the name field depends on it. -/
def titleName (s : String) : String :=
  String.intercalate " " ((s.splitOn "_").map String.capitalize)

/-- DynamicPluginLoader.load (loader.py lines 293-411).  The body of the try:
compute the checksum, execute the module (the sys.modules entry is added
before execution and survives an execution failure, the loader cache entry is
added after), resolve a skill instance, build a PluginContext — and then call
the instance's initialize with NO arguments (line 351: the constructed context
is never passed), ignoring its return value.  On success an ACTIVE PluginInfo
is registered, persisted, and announced.  Every failure is diverted to
loadFail. -/
def load (dir : List (String × PyFile)) (st : LoaderState) (module_path : String) :
    Option PluginInfo × LoaderState :=
  let plugin_id := module_path
  match alookup plugin_id dir with
  | none => loadFail st plugin_id module_path "Cannot load spec"
  | some f =>
    let st1 := { st with sys_modules := addKey plugin_id st.sys_modules }
    match f.exec_module with
    | .error e => loadFail st1 plugin_id module_path e
    | .ok _ =>
      let st2 := { st1 with loaded_modules := addKey plugin_id st1.loaded_modules }
      match resolveInstance f with
      | .error e => loadFail st2 plugin_id module_path e
      | .ok inst =>
        match (if inst.has_init then (inst.init_method none).map (fun _ => ()) else .ok ()) with
        | .error e => loadFail st2 plugin_id module_path e
        | .ok _ =>
          let info : PluginInfo :=
            { plugin_id := plugin_id
              name := titleName plugin_id
              version := "1.0.0"
              capabilities := deriveCapabilities inst
              module_path := module_path
              status := .active
              inst := some inst
              load_count := 1
              execution_count := 0
              error_count := 0
              last_error := none
              file_checksum := f.checksum }
          let st3 := register st2 info
          (some info,
           { st3 with
             db := upsert plugin_id info st3.db
             loaded_events := st3.loaded_events ++ [plugin_id] })

/-- The per-path loop of load_all, building the id → success dict. -/
def loadAllGo (dir : List (String × PyFile)) :
    List String → LoaderState → List (String × Bool) → List (String × Bool) × LoaderState
  | [], st, results => (results, st)
  | path :: rest, st, results =>
    let r := load dir st path
    let ok : Bool := match r.1 with
      | some i => decide (i.status = .active)
      | none => false
    loadAllGo dir rest r.2 (upsert path ok results)

/-- DynamicPluginLoader.load_all (loader.py lines 413-432): discover then load
each discovered path, recording per-plugin success. -/
def load_all (dir : List (String × PyFile)) (st : LoaderState) :
    List (String × Bool) × LoaderState :=
  loadAllGo dir (discover dir st) st []

/-- Module-cache eviction performed by reload before re-loading (loader.py
lines 449-453). -/
def evict (st : LoaderState) (plugin_id : String) : LoaderState :=
  { st with
    sys_modules := st.sys_modules.filter (fun x => x ≠ plugin_id)
    loaded_modules := st.loaded_modules.filter (fun x => x ≠ plugin_id) }

/-- DynamicPluginLoader.reload (loader.py lines 434-461): best-effort shutdown
of the old instance (exceptions swallowed, no state effect), cache eviction,
then a fresh load; on success the load count is carried forward by mutating
the newly registered info in place. -/
def reload (dir : List (String × PyFile)) (st : LoaderState) (plugin_id : String) :
    Bool × LoaderState :=
  match alookup plugin_id st.plugins with
  | none => (false, st)
  | some info =>
    let st1 := evict st plugin_id
    match load dir st1 info.module_path with
    | (some new_info, st') =>
      (true,
       { st' with
         plugins := upsert new_info.plugin_id
           { new_info with load_count := info.load_count + 1 } st'.plugins })
    | (none, st') => (false, st')

/-- DynamicPluginLoader.execute (loader.py lines 496-536): requires a
registered, ACTIVE plugin with an instance; dispatches to predict,
analyze_network_state or the generic execute entry point in that order;
updates the execution or error counters; failures (including the
no-entry-point case, which the try encloses) are re-raised to the caller. -/
def executePlugin (st : LoaderState) (plugin_id : String) (input : String) :
    Except String String × LoaderState :=
  match alookup plugin_id st.plugins with
  | none => (.error ("Plugin not found: " ++ plugin_id), st)
  | some info =>
    if info.status ≠ .active then (.error ("Plugin not active: " ++ plugin_id), st)
    else match info.inst with
      | none => (.error ("Plugin not loaded: " ++ plugin_id), st)
      | some inst =>
        let attempt : Except String String :=
          match inst.predict with
          | some f => f input
          | none => match inst.analyze_network_state with
            | some f => f input
            | none => match inst.run_execute with
              | some f => f input
              | none => .error "No execution method found"
        match attempt with
        | .ok r =>
          (.ok r,
           { st with
             plugins := upsert plugin_id
               { info with execution_count := info.execution_count + 1 } st.plugins })
        | .error e =>
          (.error e,
           { st with
             plugins := upsert plugin_id
               { info with error_count := info.error_count + 1, last_error := some e } st.plugins })

end Loader

namespace Discovery

/-- Truncation to a 32-bit word. -/
def w32 (n : Nat) : Nat := n % 4294967296

/-- 32-bit right rotation (argument below 2 ^ 32, rotation below 32). -/
def rotr (k x : Nat) : Nat := x / 2 ^ k + x % 2 ^ k * 2 ^ (32 - k)

/-- 32-bit right shift. -/
def shr (k x : Nat) : Nat := x / 2 ^ k

/-- The first 64 primes, whose cube roots yield the SHA-256 round constants. -/
def primes64 : List Nat :=
  [2, 3, 5, 7, 11, 13, 17, 19, 23, 29, 31, 37, 41, 43, 47, 53,
   59, 61, 67, 71, 73, 79, 83, 89, 97, 101, 103, 107, 109, 113, 127, 131,
   137, 139, 149, 151, 157, 163, 167, 173, 179, 181, 191, 193, 197, 199, 211, 223,
   227, 229, 233, 239, 241, 251, 257, 263, 269, 271, 277, 281, 283, 293, 307, 311]

/-- Binary search for the integer cube root (largest m with m ^ 3 ≤ target);
the fuel bound of 200 halvings covers every value used here. -/
def cbrtAux (target : Nat) : Nat → Nat → Nat → Nat
  | lo, _, 0 => lo
  | lo, hi, fuel + 1 =>
    let mid := (lo + hi + 1) / 2
    if mid ^ 3 ≤ target then cbrtAux target mid hi fuel else cbrtAux target lo (mid - 1) fuel

/-- Integer cube root. -/
def natCbrt (n : Nat) : Nat := cbrtAux n 0 n 200

/-- SHA-256 round constants: first 32 bits of the fractional parts of the cube
roots of the first 64 primes. -/
def roundK (i : Nat) : Nat := natCbrt (primes64.getD i 0 * 2 ^ 96) % 2 ^ 32

/-- The running hash value of SHA-256. -/
structure Hash8 where
  a : Nat
  b : Nat
  c : Nat
  d : Nat
  e : Nat
  f : Nat
  g : Nat
  h : Nat
deriving DecidableEq, Repr

/-- SHA-256 initial hash: first 32 bits of the fractional parts of the square
roots of the first 8 primes. -/
def initH : Hash8 :=
  let q := fun p => Nat.sqrt (p * 2 ^ 64) % 2 ^ 32
  { a := q 2, b := q 3, c := q 5, d := q 7, e := q 11, f := q 13, g := q 17, h := q 19 }

/-- Big-endian byte rendering of n into k bytes. -/
def toBytesBE (k n : Nat) : List Nat :=
  (List.range k).map (fun i => n / 2 ^ (8 * (k - 1 - i)) % 256)

/-- SHA-256 message padding: a 0x80 byte, zeros to 56 mod 64, and the bit
length as 8 big-endian bytes. -/
def padMessage (msg : List Nat) : List Nat :=
  msg ++ [128] ++ List.replicate ((119 - msg.length % 64) % 64) 0 ++ toBytesBE 8 (8 * msg.length)

/-- Fuel-driven split into 64-byte blocks (structural, so it reduces in the
kernel). -/
def chunksAux : Nat → List Nat → List (List Nat)
  | 0, _ => []
  | _ + 1, [] => []
  | fuel + 1, x :: rest => ((x :: rest).take 64) :: chunksAux fuel ((x :: rest).drop 64)

/-- Split a byte list into 64-byte blocks. -/
def chunks64 (l : List Nat) : List (List Nat) := chunksAux (l.length + 1) l

/-- Combine 4 big-endian bytes into a word. -/
def wordAt (block : List Nat) (i : Nat) : Nat :=
  block.getD (4 * i) 0 * 16777216 + block.getD (4 * i + 1) 0 * 65536 +
    block.getD (4 * i + 2) 0 * 256 + block.getD (4 * i + 3) 0

/-- Message-schedule extension: append words 16..63. -/
def extendSchedule : Nat → List Nat → List Nat
  | 0, w => w
  | n + 1, w =>
    let i := w.length
    let s0 := rotr 7 (w.getD (i - 15) 0) ^^^ rotr 18 (w.getD (i - 15) 0) ^^^ shr 3 (w.getD (i - 15) 0)
    let s1 := rotr 17 (w.getD (i - 2) 0) ^^^ rotr 19 (w.getD (i - 2) 0) ^^^ shr 10 (w.getD (i - 2) 0)
    extendSchedule n (w ++ [w32 (w.getD (i - 16) 0 + s0 + w.getD (i - 7) 0 + s1)])

/-- The 64-word message schedule of one block. -/
def schedule (block : List Nat) : List Nat :=
  extendSchedule 48 ((List.range 16).map (wordAt block))

/-- The SHA-256 compression rounds over a list of (round constant, schedule
word) pairs. -/
def rounds : List (Nat × Nat) → Hash8 → Hash8
  | [], st => st
  | (k, w) :: rest, st =>
    let S1 := rotr 6 st.e ^^^ rotr 11 st.e ^^^ rotr 25 st.e
    let ch := (st.e &&& st.f) ^^^ ((4294967295 - st.e) &&& st.g)
    let temp1 := w32 (st.h + S1 + ch + k + w)
    let S0 := rotr 2 st.a ^^^ rotr 13 st.a ^^^ rotr 22 st.a
    let maj := (st.a &&& st.b) ^^^ (st.a &&& st.c) ^^^ (st.b &&& st.c)
    let temp2 := w32 (S0 + maj)
    rounds rest
      { a := w32 (temp1 + temp2), b := st.a, c := st.b, d := st.c,
        e := w32 (st.d + temp1), f := st.e, g := st.f, h := st.g }

/-- Process one 64-byte block. -/
def processBlock (st : Hash8) (block : List Nat) : Hash8 :=
  let w := schedule block
  let ks := (List.range 64).map roundK
  let r := rounds (ks.zip w) st
  { a := w32 (st.a + r.a), b := w32 (st.b + r.b), c := w32 (st.c + r.c),
    d := w32 (st.d + r.d), e := w32 (st.e + r.e), f := w32 (st.f + r.f),
    g := w32 (st.g + r.g), h := w32 (st.h + r.h) }

/-- SHA-256 of a byte list, as the 8-word hash value. -/
def sha256Words (msg : List Nat) : Hash8 :=
  (chunks64 (padMessage msg)).foldl processBlock initH

/-- Lowercase hex digit. -/
def hexDigit (n : Nat) : Char :=
  if n < 10 then Char.ofNat (48 + n) else Char.ofNat (87 + n)

/-- 8-hex-char rendering of a 32-bit word. -/
def wordHex (w : Nat) : String :=
  String.mk ((List.range 8).map (fun i => hexDigit (w / 16 ^ (7 - i) % 16)))

/-- hashlib.sha256(data).hexdigest(): the 64-hex-char digest. -/
def sha256Hex (msg : List Nat) : String :=
  let r := sha256Words msg
  wordHex r.a ++ wordHex r.b ++ wordHex r.c ++ wordHex r.d ++
    wordHex r.e ++ wordHex r.f ++ wordHex r.g ++ wordHex r.h

/-- Quantization of one centroid component to hundredths: the value of
round(v, 2) scaled by 100.  round-half-to-even versus half-up only moves
exact midpoints, which the claims here never hit; equal quantized values is
the hypothesis the signature theorem consumes. -/
def quantize2 (q : ℚ) : ℤ := round (q * 100)

/-- Python float repr of a two-decimal value given in hundredths, as
json.dumps serializes round(v, 2): minimal decimals with at least one digit
after the point. -/
def renderHundredths (h : ℤ) : String :=
  let n := h.natAbs
  let ip := n / 100
  let fr := n % 100
  let frs :=
    if fr = 0 then "0"
    else if fr % 10 = 0 then toString (fr / 10)
    else if fr < 10 then "0" ++ toString fr
    else toString fr
  (if h < 0 then "-" else "") ++ toString ip ++ "." ++ frs

/-- json.dumps of a list of already-rendered values. -/
def jsonList (l : List String) : String :=
  "[" ++ String.intercalate ", " l ++ "]"

/-- The bytes of an ASCII string. -/
def strBytes (s : String) : List Nat := s.data.map Char.toNat

/-- SkillDiscovery._compute_pattern_signature (discovery.py lines 394-399):
quantize the centroid to 2 decimals, serialize with json.dumps, hash with
SHA-256 and keep the first 16 hex characters. -/
def compute_pattern_signature (centroid : List ℚ) : String :=
  let quantized := centroid.map quantize2
  ((sha256Hex (strBytes (jsonList (quantized.map renderHundredths))))).take 16

end Discovery

section ConcreteInputs

open Engine Loader Discovery

/-- A capability map at every priority target except mesh_routing, which sits
at 0.2 against its 0.8 target; REFLECT then reports exactly one gap, of
severity 0.75. -/
def c4_state : EngineState :=
  { initState with
    capabilities :=
      [("4g_lte", 9/10), ("5g_nr", 8/10), ("network_handover", 85/100),
       ("wifi_ap", 9/10), ("internet_provision", 95/100), ("rf_fingerprinting", 75/100),
       ("location_prediction", 7/10), ("mesh_routing", 1/5)] }

/-- A strategy with success rate 0.2 after exactly 5 uses. -/
def c5_strategy : AdaptationStrategy :=
  { strategy_id := 0, name := "S", learning_rate_multiplier := 1,
    batch_size_multiplier := 1, epochs_multiplier := 1, target_domain := "mesh_routing",
    success_rate := 1/5, usage_count := 5, is_active := true }

/-- An engine holding only c5_strategy and no gaps. -/
def c5_state : EngineState := { initState with strategies := [c5_strategy] }

/-- The same strategy after a sixth use. -/
def c5_strategy6 : AdaptationStrategy := { c5_strategy with usage_count := 6 }

/-- An engine holding only c5_strategy6. -/
def c5_state6 : EngineState := { initState with strategies := [c5_strategy6] }

/-- The gap produced by the failure-scenario REFLECT phase below. -/
def c1_gap : LearningGap :=
  { gap_id := 99, domain := "mesh_routing", severity := 1/2,
    resolution_attempts := 0, is_resolved := false }

/-- A REFLECT phase behavior that appends one gap and returns it. -/
def c1_fR : PhaseFn (List LearningGap) :=
  fun s => (.ok [c1_gap], { s with gaps := s.gaps ++ [c1_gap] })

/-- A PLAN phase behavior that raises. -/
def c1_fP : List LearningGap → PhaseFn (List LearningObjective) :=
  fun _ s => (.error "plan failed", s)

/-- A starting engine whose capability map is not yet reflected in storage. -/
def c1_state : EngineState := { initState with capabilities := [("4g_lte", 1)] }

/-- Empty storage. -/
def c1_db : EngineStorage := { capabilities := [], metrics := [] }

/-- One cycle in which REFLECT succeeds and PLAN raises. -/
def c1_out : CycleResult × EngineState × EngineStorage :=
  runCycleWith c1_fR c1_fP (liftPhase evaluate) (liftPhase adapt) false c1_state c1_db

/-- The engine state after the failure-scenario REFLECT phase. -/
def c1_s2 : EngineState :=
  { c1_state with learning_cycles := 1, phase := .reflecting, gaps := [c1_gap] }

/-- A skill object conforming to the NightframePlugin interface: its
initialize requires the context parameter the interface declares, succeeding
when one is passed and raising Python's TypeError when called with no
arguments. -/
def conformingInst : SkillInstance :=
  { has_init := true
    init_method := fun ctx? =>
      match ctx? with
      | some _ => .ok true
      | none => .error "TypeError: initialize() missing 1 required positional argument: context"
    has_is_ready := true
    has_capabilities := true
    capabilities := ["demo"]
    has_network_config := false
    has_feature_config := false
    has_shutdown := true
    shutdown_ok := true
    predict := none
    analyze_network_state := none
    run_execute := some (fun x => .ok x) }

/-- A well-formed plugin module whose class scan finds conformingInst. -/
def conformingFile : PyFile :=
  { exec_module := .ok ()
    has_get_skill := false
    get_skill := .error "unused"
    scan_class := some (.ok conformingInst)
    checksum := "c6c6c6c6" }

/-- Loading the conforming plugin from a directory holding only it. -/
def c6_out : Option PluginInfo × LoaderState :=
  load [("skill_demo", conformingFile)] initLoader "skill_demo"

/-- A loadable skill whose initialize tolerates the no-argument call. -/
def demoGoodInst : SkillInstance :=
  { has_init := true
    init_method := fun _ => .ok true
    has_is_ready := true
    has_capabilities := true
    capabilities := ["net"]
    has_network_config := false
    has_feature_config := false
    has_shutdown := true
    shutdown_ok := true
    predict := none
    analyze_network_state := none
    run_execute := some (fun x => .ok x) }

/-- A valid plugin file exposing the get_skill factory. -/
def demoGoodFile : PyFile :=
  { exec_module := .ok ()
    has_get_skill := true
    get_skill := .ok demoGoodInst
    scan_class := none
    checksum := "aaaa1111" }

/-- An invalid plugin file whose module execution raises. -/
def demoBadFile : PyFile :=
  { exec_module := .error "SyntaxError: invalid syntax"
    has_get_skill := false
    get_skill := .error "unused"
    scan_class := none
    checksum := "bbbb2222" }

/-- A batch of three plugin files, one of which is invalid. -/
def demoDir : List (String × PyFile) :=
  [("alpha_skill", demoGoodFile), ("beta_skill", demoGoodFile), ("gamma_skill", demoBadFile)]

/-- A registration record for plugin p with the given capabilities. -/
def c9_info (caps : List String) : PluginInfo :=
  { plugin_id := "p", name := "p", version := "1", capabilities := caps,
    module_path := "p", status := .active, inst := none, load_count := 1,
    execution_count := 0, error_count := 0, last_error := none, file_checksum := "x" }

/-- Register p under capability a, re-register it under capability b, then
unregister it. -/
def c9_st : LoaderState :=
  (unregister (register (register initLoader (c9_info ["a"])) (c9_info ["b"])) "p").2

/-- Registering p under capabilities a and b. -/
def c9w_reg : LoaderState := register initLoader (c9_info ["a", "b"])

/-- A loadable skill instance for the reload scenario. -/
def c10_inst : SkillInstance :=
  { has_init := false
    init_method := fun _ => .ok true
    has_is_ready := true
    has_capabilities := true
    capabilities := ["net10"]
    has_network_config := false
    has_feature_config := false
    has_shutdown := true
    shutdown_ok := true
    predict := some (fun x => .ok x)
    analyze_network_state := none
    run_execute := none }

/-- The plugin file for p before it is modified on disk. -/
def c10_goodFile : PyFile :=
  { exec_module := .ok ()
    has_get_skill := true
    get_skill := .ok c10_inst
    scan_class := none
    checksum := "10101010" }

/-- The plugin file for p after a modification breaks it. -/
def c10_badFile : PyFile :=
  { exec_module := .error "ImportError: broken import"
    has_get_skill := false
    get_skill := .error "unused"
    scan_class := none
    checksum := "20202020" }

/-- The directory before the modification. -/
def c10_goodDir : List (String × PyFile) := [("p", c10_goodFile)]

/-- The directory after the modification. -/
def c10_badDir : List (String × PyFile) := [("p", c10_badFile)]

/-- Loader state with p loaded and ACTIVE. -/
def c10_st : LoaderState := (load c10_goodDir initLoader "p").2

/-- The ACTIVE registry entry for p in c10_st. -/
def c10_info : PluginInfo :=
  { plugin_id := "p", name := titleName "p", version := "1.0.0",
    capabilities := ["net10"], module_path := "p", status := .active,
    inst := some c10_inst, load_count := 1, execution_count := 0, error_count := 0,
    last_error := none, file_checksum := "10101010" }

end ConcreteInputs

section Theorems

open Engine Loader Discovery

/-- Looking up the key just written returns the written value. -/
theorem alookup_upsert_self (k : String) (v : α) (l : List (String × α)) :
    alookup k (upsert k v l) = some v := by
  induction l with
  | nil => simp [upsert, alookup]
  | cons kv rest ih =>
    obtain ⟨k', v'⟩ := kv
    by_cases h : k' = k
    · simp [upsert, h, alookup]
    · simp [upsert, h, alookup, ih]

/-- Writing one key leaves every other key's lookup unchanged. -/
theorem alookup_upsert_ne (k q : String) (v : α) (l : List (String × α)) (h : q ≠ k) :
    alookup q (upsert k v l) = alookup q l := by
  induction l with
  | nil =>
    simp only [upsert, alookup]
    rw [if_neg (fun hh => h hh.symm)]
  | cons kv rest ih =>
    obtain ⟨k', v'⟩ := kv
    by_cases hk : k' = k
    · subst hk
      simp only [upsert, if_pos rfl, alookup]
      rw [if_neg (fun hh => h hh.symm), if_neg (fun hh => h hh.symm)]
    · simp only [upsert, if_neg hk, alookup, ih]

/-- Reading back the key just written through capGet. -/
theorem capGet_upsert_self (k : String) (v : ℚ) (l : List (String × ℚ)) :
    capGet (upsert k v l) k = v := by
  simp [capGet, alookup_upsert_self]

/-- The clamped value reaches 1/2 exactly when the raw input does. -/
theorem half_le_clamp (c : ℚ) : 1/2 ≤ max 0 (min 1 c) ↔ 1/2 ≤ c := by
  rw [le_max_iff, le_min_iff]
  norm_num

/-- After update_capability the stored value for the updated domain is the
clamped input. -/
theorem getCapability_update (s : EngineState) (d : String) (c : ℚ) (src : String) :
    getCapability (update_capability s d c src) d = max 0 (min 1 c) := by
  simp only [update_capability, getCapability]
  by_cases h : capGet s.capabilities d < 1/2 ∧ 1/2 ≤ c
  · rw [if_pos h]
    exact capGet_upsert_self d _ s.capabilities
  · rw [if_neg h]
    exact capGet_upsert_self d _ s.capabilities

unseal Rat.mul Rat.add Rat.sub Rat.inv in
/-- Claim C2 (confirmed): the skill-threshold notification (skills_discovered
counter increment and on_skill_discovered delivery) fires on an update exactly
when the previously stored value was below 0.5 and the newly stored value
reaches 0.5; consequently the sequences 0.2, 0.6, 0.8 and 0.6, 0.3, 0.6 fire
one and two notifications respectively. -/
theorem update_capability_threshold_crossing (s : EngineState) (d : String) (c : ℚ)
    (src : String) :
    ((update_capability s d c src).skill_events =
      s.skill_events ++
        (if getCapability s d < 1/2 ∧ 1/2 ≤ getCapability (update_capability s d c src) d
         then [(d, c)] else [])) ∧
    ((update_capability s d c src).skills_discovered =
      s.skills_discovered +
        (if getCapability s d < 1/2 ∧ 1/2 ≤ getCapability (update_capability s d c src) d
         then 1 else 0)) ∧
    (runUpdates [1/5, 3/5, 4/5]).skills_discovered = 1 ∧
    (runUpdates [1/5, 3/5, 4/5]).skill_events.length = 1 ∧
    (runUpdates [3/5, 3/10, 3/5]).skills_discovered = 2 ∧
    (runUpdates [3/5, 3/10, 3/5]).skill_events.length = 2 := by
  refine ⟨?_, ?_, by decide, by decide, by decide, by decide⟩ <;>
  · rw [getCapability_update]
    by_cases h : capGet s.capabilities d < 1/2 ∧ 1/2 ≤ c
    · rw [if_pos (show getCapability s d < 1/2 ∧ 1/2 ≤ max 0 (min 1 c) from
        ⟨h.1, (half_le_clamp c).2 h.2⟩)]
      simp only [update_capability]
      rw [if_pos h]
    · rw [if_neg (show ¬(getCapability s d < 1/2 ∧ 1/2 ≤ max 0 (min 1 c)) from
        fun hcl => h ⟨hcl.1, (half_le_clamp c).1 hcl.2⟩)]
      simp only [update_capability]
      rw [if_neg h]
      simp

unseal Rat.mul Rat.add Rat.sub Rat.inv in
/-- Claim C3 (confirmed): every update stores a value clamped to [0,1]
(inputs 1.7 and -0.3 store 1 and 0) and appends a PerformanceMetric whose
context carries the previous stored value. -/
theorem update_capability_clamps_and_records (s : EngineState) (d : String) (c : ℚ)
    (src : String) :
    0 ≤ getCapability (update_capability s d c src) d ∧
    getCapability (update_capability s d c src) d ≤ 1 ∧
    (update_capability s d c src).metrics =
      s.metrics ++
        [{ metric_id := s.next_id, capability_domain := d, metric_name := "confidence",
           value := c, context_source := src, context_previous := getCapability s d }] ∧
    getCapability (update_capability initState "rf_fingerprinting" (17/10) "training")
      "rf_fingerprinting" = 1 ∧
    getCapability (update_capability initState "rf_fingerprinting" (-3/10) "training")
      "rf_fingerprinting" = 0 := by
  refine ⟨?_, ?_, ?_, by decide, by decide⟩
  · rw [getCapability_update]; exact le_max_left 0 _
  · rw [getCapability_update]
    exact max_le (by norm_num) (min_le_left 1 c)
  · simp only [update_capability]
    by_cases h : capGet s.capabilities d < 1/2 ∧ 1/2 ≤ c
    · rw [if_pos h]; rfl
    · rw [if_neg h]; rfl

/-- planGaps never touches the capability map. -/
theorem planGaps_capabilities (l : List LearningGap) (s : EngineState) :
    (planGaps l s).2.capabilities = s.capabilities := by
  induction l generalizing s with
  | nil => rfl
  | cons g rest ih => exact ih _

/-- planGaps produces one objective per input gap. -/
theorem planGaps_length (l : List LearningGap) (s : EngineState) :
    (planGaps l s).1.length = l.length := by
  induction l generalizing s with
  | nil => rfl
  | cons g rest ih => simp only [planGaps, List.length_cons, ih]

/-- Objective domains follow the input gaps in order. -/
theorem planGaps_map_domain (l : List LearningGap) (s : EngineState) :
    (planGaps l s).1.map (·.domain) = l.map (·.domain) := by
  induction l generalizing s with
  | nil => rfl
  | cons g rest ih =>
    simp only [planGaps, List.map_cons]
    exact congrArg (List.cons _) (ih _)

/-- Objective targets are current capability + 0.1 for each input gap. -/
theorem planGaps_map_target (l : List LearningGap) (s : EngineState) :
    (planGaps l s).1.map (·.target_value) =
      l.map (fun g => capGet s.capabilities g.domain + 1/10) := by
  induction l generalizing s with
  | nil => rfl
  | cons g rest ih =>
    simp only [planGaps, List.map_cons]
    exact congrArg (List.cons _) (ih _)

/-- Objective priorities are the truncation of severity * 10 for each input
gap. -/
theorem planGaps_map_priority (l : List LearningGap) (s : EngineState) :
    (planGaps l s).1.map (·.priority) = l.map (fun g => pythonInt (g.severity * 10)) := by
  induction l generalizing s with
  | nil => rfl
  | cons g rest ih =>
    simp only [planGaps, List.map_cons]
    exact congrArg (List.cons _) (ih _)

unseal Rat.mul Rat.add Rat.sub Rat.inv in
/-- Claim C4 counterexample: with mesh_routing at 0.2 against target 0.8,
REFLECT emits one gap of severity 0.75, and PLAN gives its objective priority
int(7.5) = 7, whereas the claim's round(severity * 10) is 8. -/
theorem plan_priority_truncates_not_rounds :
    ((reflect c4_state).1.map (·.severity) = [3/4]) ∧
    ((plan (reflect c4_state).1 (reflect c4_state).2).1.map (·.priority) = [7]) ∧
    round (((3 : ℚ)/4) * 10) = 8 ∧ (7 : ℤ) ≠ 8 := by decide

/-- Claim C4 amended (the claim's priority formula round(severity * 10) is
corrected to the source's int(severity * 10), which truncates toward zero;
everything else confirmed): PLAN creates objectives for at most the 5 gaps of
highest severity, in descending severity order, with target value = current
capability + 0.1 and priority = int(severity * 10). -/
theorem plan_selects_top5_by_severity (s : EngineState) (gaps : List LearningGap) :
    ((plan gaps s).1.length = min gaps.length 5) ∧
    ((gaps.insertionSort gapGE).Perm gaps) ∧
    List.Sorted gapGE ((gaps.insertionSort gapGE).take 5) ∧
    (∀ x ∈ (gaps.insertionSort gapGE).take 5, ∀ y ∈ (gaps.insertionSort gapGE).drop 5,
        y.severity ≤ x.severity) ∧
    ((plan gaps s).1.map (·.domain) = ((gaps.insertionSort gapGE).take 5).map (·.domain)) ∧
    ((plan gaps s).1.map (·.target_value) =
        ((gaps.insertionSort gapGE).take 5).map
          (fun g => capGet s.capabilities g.domain + 1/10)) ∧
    ((plan gaps s).1.map (·.priority) =
        ((gaps.insertionSort gapGE).take 5).map (fun g => pythonInt (g.severity * 10))) := by
  have hperm := List.perm_insertionSort gapGE gaps
  refine ⟨?_, hperm, ?_, ?_, ?_, ?_, ?_⟩
  · simp only [plan]
    rw [planGaps_length, List.length_take, hperm.length_eq, Nat.min_comm]
  · exact List.Pairwise.sublist (List.take_sublist 5 _) (List.sorted_insertionSort gapGE gaps)
  · intro x hx y hy
    exact List.Sorted.rel_of_mem_take_of_mem_drop (List.sorted_insertionSort gapGE gaps) hx hy
  · exact planGaps_map_domain _ s
  · exact planGaps_map_target _ s
  · exact planGaps_map_priority _ s

/-- Every strategy created by the gap loop of ADAPT starts active. -/
theorem adaptGaps_created_active (l : List LearningGap) (b n : Nat) :
    ∀ st ∈ (adaptGaps l b n).2.1, st.is_active = true := by
  induction l generalizing b n with
  | nil => intro st h; cases h
  | cons g rest ih =>
    intro st h
    by_cases hr : g.is_resolved
    · simp only [adaptGaps, if_pos hr] at h
      exact ih _ _ st h
    · cases b with
      | zero =>
        simp only [adaptGaps, if_neg hr] at h
        cases h
      | succ b' =>
        by_cases ha : g.resolution_attempts < 3
        · simp only [adaptGaps, if_neg hr, if_pos ha] at h
          cases h with
          | head => rfl
          | tail _ h => exact ih _ _ st h
        · simp only [adaptGaps, if_neg hr, if_neg ha] at h
          exact ih _ _ st h

unseal Rat.mul Rat.add Rat.sub Rat.inv in
/-- Claim C5 counterexample: a strategy with success rate 0.2 and usage count
exactly 5 — which the claim says is deactivated — stays active through ADAPT,
because the source's condition is usage_count > 5, strictly. -/
theorem adapt_keeps_usage_five_strategy :
    ((adapt c5_state).2.strategies.map (·.is_active) = [true]) ∧
    c5_strategy.success_rate < 3/10 ∧ c5_strategy.usage_count = 5 ∧
    c5_strategy.is_active = true := by decide

unseal Rat.mul Rat.add Rat.sub Rat.inv in
/-- Claim C5 amended (the claim's usage threshold >= 5 is corrected to the
source's strict > 5): ADAPT deactivates a pre-existing strategy exactly when
its success rate is < 0.3 and its usage count is > 5; strategies it creates are
active; a 0.2-success-rate strategy is deactivated at usage count 6 but kept
active at usage count exactly 5. -/
theorem adapt_deactivation_rule (s : EngineState) :
    ((adapt s).2.strategies.take s.strategies.length =
      s.strategies.map (fun st =>
        if st.success_rate < 3/10 ∧ 5 < st.usage_count then { st with is_active := false }
        else st)) ∧
    (∀ st ∈ (adapt s).2.strategies.drop s.strategies.length, st.is_active = true) ∧
    ((adapt c5_state6).2.strategies.map (·.is_active) = [false]) ∧
    ((adapt c5_state).2.strategies.map (·.is_active) = [true]) := by
  have h1 : (adapt s).2.strategies =
      deactivateFailing s.strategies ++ (adaptGaps s.gaps 3 s.next_id).2.1 := rfl
  have hlen : (deactivateFailing s.strategies).length = s.strategies.length :=
    List.length_map _ _
  refine ⟨?_, ?_, by decide, by decide⟩
  · rw [h1, ← hlen, List.take_left]
    rfl
  · rw [h1, ← hlen, List.drop_left]
    exact adaptGaps_created_active _ _ _

unseal Rat.mul Rat.add Rat.sub Rat.inv in
/-- Claim C1 counterexample: a cycle in which REFLECT succeeds (appending one
gap) and PLAN raises captures the error in the result payload and keeps the
gap in engine state, but storage is NOT written — _save_state sits inside the
try as its last statement and is skipped on a phase error, while the claim
asserts state is persisted at the end of the cycle even on partial failure
(here the save would have changed storage). -/
theorem run_cycle_skips_persistence_on_phase_error :
    c1_out.1.error = some "plan failed" ∧
    c1_out.2.1.gaps = [c1_gap] ∧
    c1_out.2.2 = c1_db ∧
    saveState c1_out.2.1 c1_db ≠ c1_db := by decide

/-- Claim C1 amended (the claim's persisted-even-on-partial-failure clause is
corrected: persistence happens only when every phase completes): for any
behavior of the four phase calls, a phase error is captured into the cycle
result and not propagated (runCycleWith is total), state changes made before
the error — such as gaps appended by a completed REFLECT — are retained, and
storage is written exactly when no phase raised. -/
theorem runCycle_failure_semantics
    (fR : PhaseFn (List LearningGap)) (fP : List LearningGap → PhaseFn (List LearningObjective))
    (fE : PhaseFn EvalSummary) (fA : PhaseFn (List AdaptationStrategy))
    (t : Bool) (s : EngineState) (db : EngineStorage) :
    ((runCycleWith fR fP fE fA t s db).1.error = none →
      (runCycleWith fR fP fE fA t s db).2.2 =
        saveState (runCycleWith fR fP fE fA t s db).2.1 db) ∧
    ((runCycleWith fR fP fE fA t s db).1.error ≠ none →
      (runCycleWith fR fP fE fA t s db).2.2 = db) ∧
    (∀ gaps s2 m s4,
      fR (markPhase .reflecting { s with learning_cycles := s.learning_cycles + 1 }) =
        (.ok gaps, s2) →
      fP gaps (markPhase .planning s2) = (.error m, s4) →
      (runCycleWith fR fP fE fA t s db).1.error = some m ∧
      (runCycleWith fR fP fE fA t s db).1.gaps_identified = gaps ∧
      (runCycleWith fR fP fE fA t s db).2.1 = s4 ∧
      (runCycleWith fR fP fE fA t s db).2.2 = db) := by
  rcases hR : fR (markPhase .reflecting { s with learning_cycles := s.learning_cycles + 1 })
    with ⟨rR, sR⟩
  cases rR with
  | error e =>
    have herr : (runCycleWith fR fP fE fA t s db).1.error = some e := by
      simp only [runCycleWith, hR]
    have hdb : (runCycleWith fR fP fE fA t s db).2.2 = db := by
      simp only [runCycleWith, hR]
    refine ⟨fun h => absurd (herr.symm.trans h) (by simp), fun _ => hdb, ?_⟩
    intro gaps s2 m s4 h1 h2
    simp only [Prod.mk.injEq] at h1
    exact (Except.noConfusion h1.1)
  | ok gaps0 =>
    rcases hP : fP gaps0 (markPhase .planning sR) with ⟨rP, sP⟩
    cases rP with
    | error m0 =>
      have herr : (runCycleWith fR fP fE fA t s db).1.error = some m0 := by
        simp only [runCycleWith, hR, hP]
      have hdb : (runCycleWith fR fP fE fA t s db).2.2 = db := by
        simp only [runCycleWith, hR, hP]
      have hst : (runCycleWith fR fP fE fA t s db).2.1 = sP := by
        simp only [runCycleWith, hR, hP]
      have hgi : (runCycleWith fR fP fE fA t s db).1.gaps_identified = gaps0 := by
        simp only [runCycleWith, hR, hP]
      refine ⟨fun h => absurd (herr.symm.trans h) (by simp), fun _ => hdb, ?_⟩
      intro gaps s2 m s4 h1 h2
      simp only [Prod.mk.injEq, Except.ok.injEq] at h1
      obtain ⟨hg, hs⟩ := h1
      subst hg
      subst hs
      rw [hP] at h2
      simp only [Prod.mk.injEq, Except.error.injEq] at h2
      obtain ⟨hm, hs4⟩ := h2
      subst hm
      subst hs4
      exact ⟨herr, hgi, hst, hdb⟩
    | ok objs =>
      have h3 : ∀ (gaps : List LearningGap) (s2 : EngineState) (m : String) (s4 : EngineState),
          ((Except.ok gaps0 : Except String (List LearningGap)), sR) = (Except.ok gaps, s2) →
          fP gaps (markPhase .planning s2) = (Except.error m, s4) →
          (runCycleWith fR fP fE fA t s db).1.error = some m ∧
          (runCycleWith fR fP fE fA t s db).1.gaps_identified = gaps ∧
          (runCycleWith fR fP fE fA t s db).2.1 = s4 ∧
          (runCycleWith fR fP fE fA t s db).2.2 = db := by
        intro gaps s2 m s4 h1 h2
        simp only [Prod.mk.injEq, Except.ok.injEq] at h1
        obtain ⟨hg, hs⟩ := h1
        subst hg
        subst hs
        rw [hP] at h2
        simp only [Prod.mk.injEq] at h2
        exact (Except.noConfusion h2.1)
      cases t with
      | false =>
        rcases hA : fA (markPhase .adapting (markPhase .evaluating sP)) with ⟨rA, sA⟩
        cases rA with
        | error e =>
          have herr : (runCycleWith fR fP fE fA false s db).1.error = some e := by
            simp only [runCycleWith, runAdaptPhase, reduceIte, hR, hP, hA]
          have hdb : (runCycleWith fR fP fE fA false s db).2.2 = db := by
            simp only [runCycleWith, runAdaptPhase, reduceIte, hR, hP, hA]
          exact ⟨fun h => absurd (herr.symm.trans h) (by simp), fun _ => hdb, h3⟩
        | ok adaptations =>
          have herr : (runCycleWith fR fP fE fA false s db).1.error = none := by
            simp only [runCycleWith, runAdaptPhase, reduceIte, hR, hP, hA]
          have hsave : (runCycleWith fR fP fE fA false s db).2.2 =
              saveState (runCycleWith fR fP fE fA false s db).2.1 db := by
            simp only [runCycleWith, runAdaptPhase, reduceIte, hR, hP, hA]
          exact ⟨fun _ => hsave, fun h => absurd herr h, h3⟩
      | true =>
        rcases hE : fE (markPhase .evaluating sP) with ⟨rE, sE⟩
        cases rE with
        | error e =>
          have herr : (runCycleWith fR fP fE fA true s db).1.error = some e := by
            simp only [runCycleWith, reduceIte, hR, hP, hE]
          have hdb : (runCycleWith fR fP fE fA true s db).2.2 = db := by
            simp only [runCycleWith, reduceIte, hR, hP, hE]
          exact ⟨fun h => absurd (herr.symm.trans h) (by simp), fun _ => hdb, h3⟩
        | ok ev =>
          rcases hA : fA (markPhase .adapting sE) with ⟨rA, sA⟩
          cases rA with
          | error e =>
            have herr : (runCycleWith fR fP fE fA true s db).1.error = some e := by
              simp only [runCycleWith, runAdaptPhase, reduceIte, hR, hP, hE, hA]
            have hdb : (runCycleWith fR fP fE fA true s db).2.2 = db := by
              simp only [runCycleWith, runAdaptPhase, reduceIte, hR, hP, hE, hA]
            exact ⟨fun h => absurd (herr.symm.trans h) (by simp), fun _ => hdb, h3⟩
          | ok adaptations =>
            have herr : (runCycleWith fR fP fE fA true s db).1.error = none := by
              simp only [runCycleWith, runAdaptPhase, reduceIte, hR, hP, hE, hA]
            have hsave : (runCycleWith fR fP fE fA true s db).2.2 =
                saveState (runCycleWith fR fP fE fA true s db).2.1 db := by
              simp only [runCycleWith, runAdaptPhase, reduceIte, hR, hP, hE, hA]
            exact ⟨fun _ => hsave, fun h => absurd herr h, h3⟩

/-- Claim C1 witness: the amended theorem applied to the concrete
REFLECT-succeeds / PLAN-raises scenario. -/
theorem runCycle_failure_semantics_witness :
    c1_out.1.error = some "plan failed" ∧
    c1_out.1.gaps_identified = [c1_gap] ∧
    c1_out.2.1 = markPhase .planning c1_s2 ∧
    c1_out.2.2 = c1_db := by
  have h := (runCycle_failure_semantics c1_fR c1_fP (liftPhase evaluate) (liftPhase adapt)
      false c1_state c1_db).2.2 [c1_gap] c1_s2 "plan failed" (markPhase .planning c1_s2)
      rfl rfl
  exact h

/-- A found key-value pair is a member of the association list. -/
theorem alookup_mem {α : Type} (k : String) (v : α) (l : List (String × α))
    (h : alookup k l = some v) : (k, v) ∈ l := by
  induction l with
  | nil => cases h
  | cons kv rest ih =>
    obtain ⟨k', v'⟩ := kv
    by_cases hk : k' = k
    · subst hk
      rw [show alookup k' ((k', v') :: rest) = some v' from if_pos rfl] at h
      cases h
      exact List.mem_cons_self _ _
    · simp only [alookup, if_neg hk] at h
      exact List.mem_cons_of_mem _ (ih h)

/-- Elements of an upserted list come from the list or are the new pair. -/
theorem mem_upsert_elim {α : Type} (x : String × α) (k : String) (v : α)
    (l : List (String × α)) (h : x ∈ upsert k v l) : x = (k, v) ∨ x ∈ l := by
  induction l with
  | nil =>
    simp only [upsert] at h
    cases h with
    | head => exact Or.inl rfl
    | tail _ h => cases h
  | cons kv rest ih =>
    obtain ⟨k', v'⟩ := kv
    by_cases hk : k' = k
    · subst hk
      simp only [upsert, if_pos rfl] at h
      cases h with
      | head => exact Or.inl rfl
      | tail _ h => exact Or.inr (List.mem_cons_of_mem _ h)
    · simp only [upsert, if_neg hk] at h
      cases h with
      | head => exact Or.inr (List.mem_cons_self _ _)
      | tail _ h =>
        cases ih h with
        | inl h => exact Or.inl h
        | inr h => exact Or.inr (List.mem_cons_of_mem _ h)

/-- Upserting a fresh key appends it. -/
theorem upsert_fresh {α : Type} (k : String) (v : α) (l : List (String × α))
    (h : alookup k l = none) : upsert k v l = l ++ [(k, v)] := by
  induction l with
  | nil => rfl
  | cons kv rest ih =>
    obtain ⟨k', v'⟩ := kv
    by_cases hk : k' = k
    · subst hk
      simp only [alookup, if_pos rfl] at h
      cases h
    · simp only [alookup, if_neg hk] at h
      simp only [upsert, if_neg hk, List.cons_append, ih h]

/-- Lookup skips a prefix in which the key is absent. -/
theorem alookup_append_none {α : Type} (k : String) (l1 l2 : List (String × α))
    (h : alookup k l1 = none) : alookup k (l1 ++ l2) = alookup k l2 := by
  induction l1 with
  | nil => rfl
  | cons kv rest ih =>
    obtain ⟨k', v'⟩ := kv
    by_cases hk : k' = k
    · subst hk
      simp only [alookup, if_pos rfl] at h
      cases h
    · simp only [alookup, if_neg hk] at h
      simp only [List.cons_append, alookup, if_neg hk]
      exact ih h

/-- Lookup of a key never finds entries removed by the key filter. -/
theorem alookup_filter_ne {α : Type} (k : String) (l : List (String × α)) :
    alookup k (l.filter (fun kv => kv.1 ≠ k)) = none := by
  induction l with
  | nil => rfl
  | cons kv rest ih =>
    obtain ⟨k', v'⟩ := kv
    simp only [List.filter_cons]
    by_cases hk : k' = k
    · subst hk
      rw [if_neg (by simp)]
      exact ih
    · rw [if_pos (by simp [hk])]
      simp only [alookup, if_neg hk]
      exact ih

/-- The except arm of load: no instance, the ERROR record looked up under the
plugin id, and the error notification appended. -/
theorem loadFail_spec (st : LoaderState) (pid mp e : String) :
    (loadFail st pid mp e).1 = none ∧
    alookup pid (loadFail st pid mp e).2.plugins = some (errorInfo pid mp e) ∧
    (loadFail st pid mp e).2.error_events = st.error_events ++ [(pid, e)] := by
  exact ⟨rfl, alookup_upsert_self pid _ st.plugins, rfl⟩

/-- Claim C6 (code_bug demonstration): loading a plugin whose skill class
implements the NightframePlugin interface exactly as the ABC declares —
initialize requiring its context parameter — fails: load constructs the
PluginContext but invokes the initialization with no arguments (loader.py line
351 calls instance.initialize() and discards the constructed context), so the
conforming plugin raises TypeError, an ERROR-status record with no instance is
registered, and no usable instance is returned.  Passing the constructed
context instead would have succeeded, as the last conjunct shows. -/
theorem load_drops_context_for_conforming_plugin :
    c6_out.1 = none ∧
    alookup "skill_demo" c6_out.2.plugins =
      some (errorInfo "skill_demo" "skill_demo"
        "TypeError: initialize() missing 1 required positional argument: context") ∧
    (errorInfo "skill_demo" "skill_demo"
        "TypeError: initialize() missing 1 required positional argument: context").status =
      PluginStatus.error ∧
    (errorInfo "skill_demo" "skill_demo"
        "TypeError: initialize() missing 1 required positional argument: context").inst =
      none ∧
    conformingInst.init_method
      (some { plugin_id := "skill_demo", plugin_dir := "generated_skills", config := [] }) =
      Except.ok true := by
  exact ⟨rfl, rfl, rfl, rfl, rfl⟩

/-- Whenever load returns no instance, the registry holds an ERROR record for
the path's id and the error notification was delivered. -/
theorem load_none_spec (dir : List (String × PyFile)) (st : LoaderState) (path : String)
    (h : (load dir st path).1 = none) :
    ∃ e, alookup path (load dir st path).2.plugins = some (errorInfo path path e) ∧
      (load dir st path).2.error_events = st.error_events ++ [(path, e)] := by
  cases hf : alookup path dir with
  | none =>
    simp only [load, hf]
    exact ⟨"Cannot load spec", (loadFail_spec _ _ _ _).2.1, (loadFail_spec _ _ _ _).2.2⟩
  | some f =>
    cases he : f.exec_module with
    | error e =>
      simp only [load, hf, he]
      exact ⟨e, (loadFail_spec _ _ _ _).2.1, (loadFail_spec _ _ _ _).2.2⟩
    | ok u =>
      cases hr : resolveInstance f with
      | error e =>
        simp only [load, hf, he, hr]
        exact ⟨e, (loadFail_spec _ _ _ _).2.1, (loadFail_spec _ _ _ _).2.2⟩
      | ok inst =>
        cases hi : (if inst.has_init then (inst.init_method none).map (fun _ => ())
            else Except.ok ()) with
        | error e =>
          simp only [load, hf, he, hr, hi]
          exact ⟨e, (loadFail_spec _ _ _ _).2.1, (loadFail_spec _ _ _ _).2.2⟩
        | ok u2 =>
          exfalso
          have h1 : (load dir st path).1.isSome = true := by
            simp only [load, hf, he, hr, hi, Option.isSome_some]
          rw [h] at h1
          cases h1

/-- Whenever load returns an instance, the returned info is ACTIVE, keyed by
the path's id with load count 1, registered, and announced. -/
theorem load_some_spec (dir : List (String × PyFile)) (st : LoaderState) (path : String)
    (info : PluginInfo) (h : (load dir st path).1 = some info) :
    info.status = PluginStatus.active ∧ info.plugin_id = path ∧ info.load_count = 1 ∧
    alookup path (load dir st path).2.plugins = some info ∧
    (load dir st path).2.loaded_events = st.loaded_events ++ [path] := by
  cases hf : alookup path dir with
  | none =>
    simp only [load, loadFail, hf] at h
    exact Option.noConfusion h
  | some f =>
    cases he : f.exec_module with
    | error e =>
      simp only [load, loadFail, hf, he] at h
      exact Option.noConfusion h
    | ok u =>
      cases hr : resolveInstance f with
      | error e =>
        simp only [load, loadFail, hf, he, hr] at h
        exact Option.noConfusion h
      | ok inst =>
        cases hi : (if inst.has_init then (inst.init_method none).map (fun _ => ())
            else Except.ok ()) with
        | error e =>
          simp only [load, loadFail, hf, he, hr, hi] at h
          exact Option.noConfusion h
        | ok u2 =>
          simp only [load, hf, he, hr, hi, Option.some.injEq] at h
          subst h
          refine ⟨rfl, rfl, rfl, ?_, ?_⟩
          · simp only [load, hf, he, hr, hi]
            exact alookup_upsert_self _ _ _
          · simp only [load, hf, he, hr, hi]
            rfl

/-- load only touches its own plugin id in the registry. -/
theorem load_plugins_other (dir : List (String × PyFile)) (st : LoaderState)
    (path q : String) (hq : q ≠ path) :
    alookup q (load dir st path).2.plugins = alookup q st.plugins := by
  cases hf : alookup path dir with
  | none =>
    simp only [load, loadFail, register, hf]
    exact alookup_upsert_ne _ q _ _ hq
  | some f =>
    cases he : f.exec_module with
    | error e =>
      simp only [load, loadFail, register, hf, he]
      exact alookup_upsert_ne _ q _ _ hq
    | ok u =>
      cases hr : resolveInstance f with
      | error e =>
        simp only [load, loadFail, register, hf, he, hr]
        exact alookup_upsert_ne _ q _ _ hq
      | ok inst =>
        cases hi : (if inst.has_init then (inst.init_method none).map (fun _ => ())
            else Except.ok ()) with
        | error e =>
          simp only [load, loadFail, register, hf, he, hr, hi]
          exact alookup_upsert_ne _ q _ _ hq
        | ok u2 =>
          simp only [load, register, hf, he, hr, hi]
          exact alookup_upsert_ne _ q _ _ hq

/-- The batch loop only touches the registry entries of the paths it loads. -/
theorem loadAllGo_plugins_other (dir : List (String × PyFile)) (paths : List String)
    (st : LoaderState) (acc : List (String × Bool)) (q : String) (hq : q ∉ paths) :
    alookup q (loadAllGo dir paths st acc).2.plugins = alookup q st.plugins := by
  induction paths generalizing st acc with
  | nil => rfl
  | cons p rest ih =>
    have hqp : q ≠ p := fun h => hq (h ▸ List.mem_cons_self p rest)
    have hqr : q ∉ rest := fun h => hq (List.mem_cons_of_mem p h)
    simp only [loadAllGo]
    rw [ih _ _ hqr]
    exact load_plugins_other dir st p q hqp

/-- The keys of the batch result dict are the loaded paths, in order. -/
theorem loadAllGo_keys (dir : List (String × PyFile)) (paths : List String)
    (st : LoaderState) (acc : List (String × Bool)) (hnd : paths.Nodup)
    (hfresh : ∀ p ∈ paths, alookup p acc = none) :
    (loadAllGo dir paths st acc).1.map Prod.fst = acc.map Prod.fst ++ paths := by
  induction paths generalizing st acc with
  | nil => simp [loadAllGo]
  | cons p rest ih =>
    have hfp : alookup p acc = none := hfresh p (List.mem_cons_self p rest)
    have hnp : p ∉ rest := (List.nodup_cons.1 hnd).1
    have hnr : rest.Nodup := (List.nodup_cons.1 hnd).2
    have hfr : ∀ (b : Bool), ∀ q ∈ rest, alookup q (acc ++ [(p, b)]) = none := by
      intro b q hq
      rw [alookup_append_none _ _ _ (hfresh q (List.mem_cons_of_mem p hq))]
      simp only [alookup]
      rw [if_neg (fun h : p = q => hnp (h ▸ hq))]
    simp only [loadAllGo]
    rw [upsert_fresh _ _ _ hfp, ih _ _ hnr (hfr _)]
    simp

/-- Per-entry meaning of the batch result: entries not inherited from the
accumulator carry true exactly when their plugin ended up registered ACTIVE
and false exactly when it ended up as an ERROR record. -/
theorem loadAllGo_mem_spec (dir : List (String × PyFile)) (paths : List String)
    (st : LoaderState) (acc : List (String × Bool)) (hnd : paths.Nodup) :
    ∀ pid b, (pid, b) ∈ (loadAllGo dir paths st acc).1 →
      (pid, b) ∈ acc ∨
      (pid ∈ paths ∧
        (b = true → ∃ info, alookup pid (loadAllGo dir paths st acc).2.plugins = some info ∧
            info.status = PluginStatus.active) ∧
        (b = false → ∃ e, alookup pid (loadAllGo dir paths st acc).2.plugins =
            some (errorInfo pid pid e))) := by
  induction paths generalizing st acc with
  | nil =>
    intro pid b hmem
    exact Or.inl hmem
  | cons p rest ih =>
    have hnp : p ∉ rest := (List.nodup_cons.1 hnd).1
    have hnr : rest.Nodup := (List.nodup_cons.1 hnd).2
    intro pid b hmem
    simp only [loadAllGo] at hmem ⊢
    rcases ih _ _ hnr pid b hmem with hacc | ⟨hin, htrue, hfalse⟩
    · rcases mem_upsert_elim _ _ _ _ hacc with heq | hacc'
      · -- the entry recorded for p itself
        have hpid : pid = p := congrArg Prod.fst heq
        have hb : b = (match (load dir st p).1 with
            | some i => decide (i.status = PluginStatus.active)
            | none => false) := congrArg Prod.snd heq
        subst hpid
        refine Or.inr ⟨List.mem_cons_self pid rest, ?_, ?_⟩
        · intro hbt
          cases hL : (load dir st pid).1 with
          | none =>
            rw [hL] at hb
            simp at hb
            rw [hb] at hbt
            cases hbt
          | some i =>
            obtain ⟨hst, hpid', _, hlook, _⟩ := load_some_spec dir st pid i hL
            refine ⟨i, ?_, hst⟩
            rw [loadAllGo_plugins_other dir rest _ _ pid hnp]
            exact hlook
        · intro hbf
          cases hL : (load dir st pid).1 with
          | none =>
            obtain ⟨e, hlook, _⟩ := load_none_spec dir st pid hL
            refine ⟨e, ?_⟩
            rw [loadAllGo_plugins_other dir rest _ _ pid hnp]
            exact hlook
          | some i =>
            obtain ⟨hst, _, _, _, _⟩ := load_some_spec dir st pid i hL
            rw [hL] at hb
            simp only [hst] at hb
            simp at hb
            rw [hb] at hbf
            cases hbf
      · exact Or.inl hacc'
    · exact Or.inr ⟨List.mem_cons_of_mem p hin, htrue, hfalse⟩

/-- Claim C7 (confirmed): load never raises to its caller — every failure
path produces an ERROR-status registry record carrying the error text and an
on_plugin_error notification while returning no instance, and every success
returns an ACTIVE registered info; consequently load_all returns one success
flag per discovered path (the batch is never aborted), true exactly for the
plugins registered ACTIVE and false exactly for those registered as ERROR
records. -/
theorem load_failures_isolated (dir : List (String × PyFile)) (st : LoaderState)
    (path : String) (hnd : (discover dir st).Nodup) :
    ((load dir st path).1 = none →
      ∃ e, alookup path (load dir st path).2.plugins = some (errorInfo path path e) ∧
        (load dir st path).2.error_events = st.error_events ++ [(path, e)]) ∧
    (∀ info, (load dir st path).1 = some info →
      info.status = PluginStatus.active ∧
      alookup path (load dir st path).2.plugins = some info) ∧
    ((load_all dir st).1.map Prod.fst = discover dir st) ∧
    (∀ pid b, (pid, b) ∈ (load_all dir st).1 →
      (b = true → ∃ info, alookup pid (load_all dir st).2.plugins = some info ∧
          info.status = PluginStatus.active) ∧
      (b = false → ∃ e, alookup pid (load_all dir st).2.plugins =
          some (errorInfo pid pid e))) := by
  refine ⟨load_none_spec dir st path, ?_, ?_, ?_⟩
  · intro info h
    obtain ⟨h1, _, _, h4, _⟩ := load_some_spec dir st path info h
    exact ⟨h1, h4⟩
  · exact loadAllGo_keys dir _ st [] hnd (fun p _ => rfl)
  · intro pid b hmem
    rcases loadAllGo_mem_spec dir _ st [] hnd pid b hmem with hacc | ⟨_, ht, hf⟩
    · cases hacc
    · exact ⟨ht, hf⟩

/-- Claim C7 witness: the isolation theorem applied to a concrete batch of
three plugin files, one of which fails to execute — two true entries, one
false entry, and an ERROR registry record for the failing id. -/
theorem load_failures_isolated_witness :
    (Loader.discover demoDir initLoader).Nodup ∧
    (load_all demoDir initLoader).1 =
      [("alpha_skill", true), ("beta_skill", true), ("gamma_skill", false)] ∧
    (∃ e, alookup "gamma_skill" (load_all demoDir initLoader).2.plugins =
      some (errorInfo "gamma_skill" "gamma_skill" e)) ∧
    (∃ info, alookup "alpha_skill" (load_all demoDir initLoader).2.plugins = some info ∧
      info.status = PluginStatus.active) := by
  have h := load_failures_isolated demoDir initLoader "gamma_skill" (by decide)
  refine ⟨by decide, by decide, ?_, ?_⟩
  · exact (h.2.2.2 "gamma_skill" false (by decide)).2 rfl
  · exact (h.2.2.2 "alpha_skill" true (by decide)).1 rfl

/-- register's capability-index loop keeps every per-capability list free of
duplicates. -/
theorem regCaps_nodup (pid : String) (caps : List String)
    (m : List (String × List String)) (hm : ∀ e ∈ m, e.2.Nodup) :
    ∀ e ∈ registerCaps pid caps m, e.2.Nodup := by
  induction caps generalizing m with
  | nil => exact hm
  | cons cap rest ih =>
    simp only [registerCaps]
    by_cases hmem : pid ∈ (alookup cap m).getD []
    · rw [if_pos hmem]
      exact ih m hm
    · rw [if_neg hmem]
      apply ih
      intro e he
      rcases mem_upsert_elim _ _ _ _ he with heq | hin
      · have hcur : ((alookup cap m).getD []).Nodup := by
          cases hc : alookup cap m with
          | none => simp
          | some l => exact hm (cap, l) (alookup_mem _ _ _ hc)
        subst heq
        refine List.Nodup.append hcur (List.nodup_singleton pid) ?_
        intro a ha hb
        rw [List.mem_singleton] at hb
        subst hb
        exact hmem ha
      · exact hm e hin

/-- Once a plugin id sits in a capability list, the register loop keeps it
there. -/
theorem regCaps_mem_preserved (pid c : String) (caps : List String)
    (m : List (String × List String)) (h : pid ∈ (alookup c m).getD []) :
    pid ∈ (alookup c (registerCaps pid caps m)).getD [] := by
  induction caps generalizing m with
  | nil => exact h
  | cons cap rest ih =>
    simp only [registerCaps]
    by_cases hmem : pid ∈ (alookup cap m).getD []
    · rw [if_pos hmem]
      exact ih m h
    · rw [if_neg hmem]
      apply ih
      by_cases hc : cap = c
      · subst hc
        exact absurd h hmem
      · rw [alookup_upsert_ne _ _ _ _ (fun hh => hc hh.symm)]
        exact h

/-- After register, the plugin id sits in the list of each of its
capabilities. -/
theorem regCaps_mem_self (pid : String) (caps : List String)
    (m : List (String × List String)) (c : String) (hc : c ∈ caps) :
    pid ∈ (alookup c (registerCaps pid caps m)).getD [] := by
  induction caps generalizing m with
  | nil => cases hc
  | cons cap rest ih =>
    simp only [registerCaps]
    by_cases hmem : pid ∈ (alookup cap m).getD []
    · rw [if_pos hmem]
      cases hc with
      | head => exact regCaps_mem_preserved pid _ rest m hmem
      | tail _ h => exact ih _ h
    · rw [if_neg hmem]
      cases hc with
      | head =>
        apply regCaps_mem_preserved
        rw [alookup_upsert_self]
        simp
      | tail _ h => exact ih _ h

/-- Once a plugin id is out of a capability list, the prune loop keeps it
out. -/
theorem pruneCaps_not_mem_preserved (pid c : String) (caps : List String)
    (m : List (String × List String)) (h : pid ∉ (alookup c m).getD []) :
    pid ∉ (alookup c (pruneCaps pid caps m)).getD [] := by
  induction caps generalizing m with
  | nil => exact h
  | cons cap rest ih =>
    simp only [pruneCaps]
    cases hcm : alookup cap m with
    | none => exact ih _ h
    | some cur =>
      apply ih
      by_cases hcc : cap = c
      · subst hcc
        rw [alookup_upsert_self]
        simp [List.mem_filter]
      · rw [alookup_upsert_ne _ _ _ _ (fun hh => hcc hh.symm)]
        exact h

/-- unregister's prune loop removes the plugin id from the list of every
capability it visits. -/
theorem pruneCaps_removes (pid : String) (caps : List String)
    (m : List (String × List String)) (c : String) (hc : c ∈ caps) :
    pid ∉ (alookup c (pruneCaps pid caps m)).getD [] := by
  induction caps generalizing m with
  | nil => cases hc
  | cons cap rest ih =>
    simp only [pruneCaps]
    cases hcm : alookup cap m with
    | none =>
      cases hc with
      | head =>
        apply pruneCaps_not_mem_preserved
        rw [hcm]
        simp
      | tail _ h => exact ih _ h
    | some cur =>
      cases hc with
      | head =>
        apply pruneCaps_not_mem_preserved
        rw [alookup_upsert_self]
        simp [List.mem_filter]
      | tail _ h => exact ih _ h

/-- Claim C9 counterexample: register p under capability a, re-register it
under capability b (overwrite by id), then unregister it — the stale id p is
still inside capability a's index list, contradicting the claim that after
unregister the plugin id is absent from every capability list.  (It is
invisible to get_by_capability, which filters against the primary map.) -/
theorem unregister_leaves_stale_capability_entry :
    alookup "a" c9_st.capabilities_map = some ["p"] ∧
    "p" ∈ ((alookup "a" c9_st.capabilities_map).getD []) ∧
    alookup "p" c9_st.plugins = none := by
  exact ⟨rfl, by decide, rfl⟩

/-- Claim C9 amended (the unregister clause holds for the capability lists of
the plugin's current registration — a re-registration that changed the
capability list can leave a stale id under an old capability, though
get_by_capability filters such ids out and never returns an unregistered
plugin): register indexes each capability of the info to a list containing
its id exactly once and preserves index dedup; unregister removes the id from
the primary map and from every capability list of its current registration. -/
theorem registry_capability_index_spec (st : LoaderState) (info : PluginInfo)
    (pid : String)
    (hkeys : ∀ e ∈ st.plugins, e.2.plugin_id = e.1)
    (hnd : ∀ e ∈ st.capabilities_map, e.2.Nodup) :
    (∀ cap ∈ info.capabilities,
      ((alookup cap (register st info).capabilities_map).getD []).count info.plugin_id = 1) ∧
    (∀ e ∈ (register st info).capabilities_map, e.2.Nodup) ∧
    (alookup pid ((unregister st pid).2).plugins = none) ∧
    (∀ i, alookup pid st.plugins = some i → ∀ cap ∈ i.capabilities,
      pid ∉ ((alookup cap ((unregister st pid).2).capabilities_map).getD [])) ∧
    (∀ cap i, i ∈ get_by_capability ((unregister st pid).2) cap → i.plugin_id ≠ pid) := by
  refine ⟨?_, ?_, ?_, ?_, ?_⟩
  · intro cap hcap
    have hmem := regCaps_mem_self info.plugin_id info.capabilities st.capabilities_map cap hcap
    have hnd' := regCaps_nodup info.plugin_id info.capabilities st.capabilities_map hnd
    simp only [register]
    cases hl : alookup cap (registerCaps info.plugin_id info.capabilities st.capabilities_map) with
    | none =>
      rw [hl] at hmem
      simp at hmem
    | some l =>
      rw [hl] at hmem
      simp only [Option.getD_some] at hmem ⊢
      exact List.count_eq_one_of_mem (hnd' (cap, l) (alookup_mem _ _ _ hl)) hmem
  · simp only [register]
    exact regCaps_nodup _ _ _ hnd
  · cases hu : alookup pid st.plugins with
    | none =>
      simp only [unregister, hu]
    | some i =>
      simp only [unregister, hu]
      exact alookup_filter_ne pid st.plugins
  · intro i hi cap hcap
    simp only [unregister, hi]
    exact pruneCaps_removes pid i.capabilities st.capabilities_map cap hcap
  · intro cap i hi
    cases hu : alookup pid st.plugins with
    | none =>
      simp only [unregister, hu] at hi
      simp only [get_by_capability, List.mem_filterMap] at hi
      obtain ⟨q, hq, hlq⟩ := hi
      have hkey := hkeys (q, i) (alookup_mem _ _ _ hlq)
      intro heq
      have hqp : q = pid := (hkey.symm.trans heq)
      rw [hqp] at hlq
      rw [hu] at hlq
      cases hlq
    | some info0 =>
      simp only [unregister, hu] at hi
      simp only [get_by_capability, List.mem_filterMap] at hi
      obtain ⟨q, hq, hlq⟩ := hi
      have hmem := alookup_mem _ _ _ hlq
      rw [List.mem_filter] at hmem
      obtain ⟨hmem1, hfil⟩ := hmem
      have hqp : q ≠ pid := by simpa using hfil
      have hkey := hkeys (q, i) hmem1
      intro heq
      exact hqp (hkey.symm.trans heq)

/-- Claim C9 witness: the amended theorem applied to registering p under
capabilities a and b and unregistering it — both queries come back empty and
no unregistered id is ever returned. -/
theorem registry_capability_index_spec_witness :
    (∀ e ∈ c9w_reg.plugins, e.2.plugin_id = e.1) ∧
    get_by_capability ((unregister c9w_reg "p").2) "a" = [] ∧
    get_by_capability ((unregister c9w_reg "p").2) "b" = [] ∧
    (∀ cap i, i ∈ get_by_capability ((unregister c9w_reg "p").2) cap →
      i.plugin_id ≠ "p") := by
  refine ⟨by decide, rfl, rfl, ?_⟩
  exact (registry_capability_index_spec c9w_reg (c9_info ["a", "b"]) "p"
    (by decide) (by decide)).2.2.2.2

/-- Claim C10 (confirmed): reload is not atomic with respect to the registry
on failure — for a registered plugin, when the inner load of reload fails the
previously registered info (instance and counters included) is overwritten by
the ERROR record with no instance and zero load count, reload returns false,
and execute then refuses the plugin as not active; the incremented load count
is carried forward only when the inner load succeeds. -/
theorem reload_failure_overwrites_registry (dir : List (String × PyFile))
    (st : LoaderState) (pid : String) (info : PluginInfo)
    (hlook : alookup pid st.plugins = some info) (hpath : info.module_path = pid) :
    ((load dir (evict st pid) pid).1 = none →
      reload dir st pid = (false, (load dir (evict st pid) pid).2) ∧
      (∃ e, alookup pid (load dir (evict st pid) pid).2.plugins =
          some (errorInfo pid pid e) ∧
        (errorInfo pid pid e).inst = none ∧ (errorInfo pid pid e).load_count = 0) ∧
      (∀ input, (executePlugin (load dir (evict st pid) pid).2 pid input).1 =
        Except.error ("Plugin not active: " ++ pid))) ∧
    (∀ ni st2, load dir (evict st pid) pid = (some ni, st2) →
      reload dir st pid =
        (true,
         { st2 with
           plugins := upsert pid { ni with load_count := info.load_count + 1 } st2.plugins }) ∧
      alookup pid (upsert pid { ni with load_count := info.load_count + 1 } st2.plugins) =
        some { ni with load_count := info.load_count + 1 }) := by
  constructor
  · intro hnone
    refine ⟨?_, ?_, ?_⟩
    · simp only [reload, hlook, hpath]
      rcases hL : load dir (evict st pid) pid with ⟨o, st2⟩
      rw [hL] at hnone
      simp only at hnone
      subst hnone
      rfl
    · obtain ⟨e, h1, _⟩ := load_none_spec dir (evict st pid) pid hnone
      exact ⟨e, h1, rfl, rfl⟩
    · intro input
      obtain ⟨e, h1, _⟩ := load_none_spec dir (evict st pid) pid hnone
      simp only [executePlugin, h1]
      have hcond : (errorInfo pid pid e).status ≠ PluginStatus.active :=
        fun hcon => PluginStatus.noConfusion hcon
      rw [if_pos hcond]
  · intro ni st2 hL
    obtain ⟨hst, hpid', hlc, hlook2, _⟩ :=
      load_some_spec dir (evict st pid) pid ni (by rw [hL])
    constructor
    · simp only [reload, hlook, hpath, hL]
      rw [hpid']
    · exact alookup_upsert_self _ _ _

/-- Claim C10 witness: plugin p is loaded ACTIVE, its file on disk is then
replaced by one whose module execution raises; reload fails, the ACTIVE entry
is gone in favor of the ERROR record, execute refuses it — while reloading
against the intact file carries the load count from 1 to 2. -/
theorem reload_failure_overwrites_registry_witness :
    alookup "p" c10_st.plugins = some c10_info ∧
    reload c10_badDir c10_st "p" = (false, (load c10_badDir (evict c10_st "p") "p").2) ∧
    (∃ e, alookup "p" (load c10_badDir (evict c10_st "p") "p").2.plugins =
      some (errorInfo "p" "p" e)) ∧
    (executePlugin (load c10_badDir (evict c10_st "p") "p").2 "p" "input").1 =
      Except.error ("Plugin not active: " ++ "p") ∧
    alookup "p" (reload c10_goodDir c10_st "p").2.plugins =
      some { c10_info with load_count := 2 } := by
  have h := (reload_failure_overwrites_registry c10_badDir c10_st "p" c10_info rfl rfl).1 rfl
  refine ⟨rfl, h.1, ?_, h.2.2 "input", rfl⟩
  obtain ⟨e, h1, _, _⟩ := h.2.1
  exact ⟨e, h1⟩

/-- Claim C8 (confirmed): the pattern-signature function is a pure function
of the centroid quantized to 2 decimal places — two centroids of equal length
whose components quantize identically produce identical signatures (SHA-256 of
the json serialization of the quantized vector, truncated to 16 hex chars). -/
theorem pattern_signature_quantization_stable (u v : List ℚ)
    (hlen : u.length = v.length)
    (hq : ∀ (i : ℕ) (hu : i < u.length) (hv : i < v.length),
      quantize2 (u.get ⟨i, hu⟩) = quantize2 (v.get ⟨i, hv⟩)) :
    compute_pattern_signature u = compute_pattern_signature v := by
  have hmap : u.map quantize2 = v.map quantize2 := by
    apply List.ext_get
    · simp [hlen]
    · intro i h1 h2
      simp only [List.get_eq_getElem, List.getElem_map]
      exact hq i (by simpa using h1) (by simpa using h2)
  simp only [compute_pattern_signature, hmap]

unseal Rat.mul Rat.add Rat.sub Rat.inv in
/-- Claim C8 witness: the centroids 1.001, 2.002 and 1.004, 1.999 quantize
componentwise to the same hundredths (1.00, 2.00) and therefore carry the same
signature. -/
theorem pattern_signature_quantization_stable_witness :
    ([(1001 : ℚ)/1000, 2002/1000].length = [(1004 : ℚ)/1000, 1999/1000].length) ∧
    (∀ (i : ℕ) (hu : i < [(1001 : ℚ)/1000, 2002/1000].length)
        (hv : i < [(1004 : ℚ)/1000, 1999/1000].length),
      quantize2 ([(1001 : ℚ)/1000, 2002/1000].get ⟨i, hu⟩) =
        quantize2 ([(1004 : ℚ)/1000, 1999/1000].get ⟨i, hv⟩)) ∧
    compute_pattern_signature [(1001 : ℚ)/1000, 2002/1000] =
      compute_pattern_signature [(1004 : ℚ)/1000, 1999/1000] := by
  have hq : ∀ (i : ℕ) (hu : i < [(1001 : ℚ)/1000, 2002/1000].length)
      (hv : i < [(1004 : ℚ)/1000, 1999/1000].length),
      quantize2 ([(1001 : ℚ)/1000, 2002/1000].get ⟨i, hu⟩) =
        quantize2 ([(1004 : ℚ)/1000, 1999/1000].get ⟨i, hv⟩) := by
    intro i hu hv
    simp only [List.length_cons, List.length_nil] at hu
    interval_cases i
    · show quantize2 ((1001 : ℚ)/1000) = quantize2 ((1004 : ℚ)/1000)
      decide
    · show quantize2 ((2002 : ℚ)/1000) = quantize2 ((1999 : ℚ)/1000)
      decide
  exact ⟨rfl, hq, pattern_signature_quantization_stable _ _ rfl hq⟩

/-- Claim C2 witness: the threshold theorem applied to the two example update
sequences. -/
theorem update_capability_threshold_crossing_witness :
    (runUpdates [1/5, 3/5, 4/5]).skills_discovered = 1 ∧
    (runUpdates [3/5, 3/10, 3/5]).skills_discovered = 2 :=
  ⟨(update_capability_threshold_crossing initState "rf_fingerprinting" 0 "training").2.2.1,
   (update_capability_threshold_crossing initState "rf_fingerprinting" 0 "training").2.2.2.2.1⟩

/-- Claim C3 witness: the clamping theorem applied to the inputs 1.7
and -0.3. -/
theorem update_capability_clamps_and_records_witness :
    getCapability (update_capability initState "rf_fingerprinting" (17/10) "training")
      "rf_fingerprinting" = 1 ∧
    getCapability (update_capability initState "rf_fingerprinting" (-3/10) "training")
      "rf_fingerprinting" = 0 :=
  ⟨(update_capability_clamps_and_records initState "rf_fingerprinting" 0 "training").2.2.2.1,
   (update_capability_clamps_and_records initState "rf_fingerprinting" 0 "training").2.2.2.2⟩

/-- Claim C4 witness: the amended PLAN theorem applied to the gaps REFLECT
reports for the c4 capability map. -/
theorem plan_selects_top5_by_severity_witness :
    (plan (reflect c4_state).1 (reflect c4_state).2).1.length =
      min (reflect c4_state).1.length 5 :=
  (plan_selects_top5_by_severity (reflect c4_state).2 (reflect c4_state).1).1

/-- Claim C5 witness: the amended deactivation theorem applied to the
usage-count-6 strategy. -/
theorem adapt_deactivation_rule_witness :
    (adapt c5_state6).2.strategies.map (·.is_active) = [false] :=
  (adapt_deactivation_rule c5_state6).2.2.1

end Theorems

end NightFrame
